import Mathlib

/-!
Verification of the MetaMind tutoring orchestrator (turn/plan engine).

This file is a shallow embedding of the Python sources:
  * `agents/retry_logic.py`   — bounded retry with exponential backoff,
  * `agents/socratic.py`      — the dialogue capability wrapper and its reply parser,
  * `app/learning/mastery.py` — the pure mastery model,
  * `app/storage/sqlite_store.py` — the state repository (modelled as in-memory lists),
  * `app/controller.py`       — `handle_student_message`, the turn controller.

Modelling conventions:
  * Python floats are modelled as exact rationals (`ℚ`).
  * Timestamps (`created_at`, `last_seen`, `updated_at`) are not modelled: no claim
    observes them.
  * `uuid4`-generated identifiers are modelled by a fresh counter threaded through the
    store (`next_id`); freshness of a uuid is an assumption of the source.
  * External capability calls (the Mistral chat completions) are oracles: their
    outcomes are inputs of the model.  Prompt construction is therefore not
    modelled — the oracles ignore their prompt.
  * `json.dumps`/`json.loads` round-trips on lists of strings are modelled as the
    identity, so a snapshot's `skills_json` field is carried as `List String`.
  * Each call to `call_planner_agent` is recorded in a ghost trace
    (`planner_calls`, holding the `learning_reason` argument) so that "a re-plan is
    requested" is observable.
-/

namespace MetaMind

/-! ### Failures of external calls (`mistralai` exceptions)

`CallErr.sdk` is an `SDKError` carrying `str(e)`; `CallErr.other` is any other
Python exception raised by the wrapped call. -/

inductive CallErr where
  | sdk (msg : String)
  | other (msg : String)
deriving DecidableEq, Repr

/-! ### Structural string primitives

Python's `strip`, `lower`, `split`, `startswith` and `in` are modelled by
character-list recursion (the library's positional `String` functions do not
reduce inside the kernel).  ASCII case folding and the four common whitespace
characters suffice for every string this program manipulates. -/

/-- Whitespace for Python `strip()`. -/
def isWs (c : Char) : Bool := c == ' ' || c == '\t' || c == '\n' || c == '\r'

/-- Python `s.lstrip()`. -/
def trimLeftStr (s : String) : String := String.mk (s.toList.dropWhile isWs)

/-- Python `s.strip()`. -/
def trimStr (s : String) : String :=
  String.mk (((s.toList.dropWhile isWs).reverse.dropWhile isWs).reverse)

/-- Does the second list start with the first? -/
def charsStartWith : List Char → List Char → Bool
  | [], _ => true
  | _ :: _, [] => false
  | p :: ps, c :: cs => p == c && charsStartWith ps cs

/-- Python `s.startswith(pat)`. -/
def startsWithStr (s pat : String) : Bool := charsStartWith pat.toList s.toList

/-- Occurrence of `pat` anywhere in the list. -/
def charsContain (pat : List Char) : List Char → Bool
  | [] => pat.isEmpty
  | c :: cs => charsStartWith pat (c :: cs) || charsContain pat cs

/-- Boolean substring test, modelling Python's `pat in s`. -/
def containsSub (s pat : String) : Bool := charsContain pat.toList s.toList

/-- Split on one separator character, keeping empty pieces (Python `s.split(sep)`). -/
def splitChars (sep : Char) : List Char → List (List Char)
  | [] => [[]]
  | c :: cs =>
    match splitChars sep cs with
    | [] => [[]]
    | g :: gs => if c == sep then [] :: g :: gs else (c :: g) :: gs

/-- Split a string on one separator character. -/
def splitStr (sep : Char) (s : String) : List String :=
  (splitChars sep s.toList).map String.mk

/-- Python `str.lower()`. -/
def lowerStr (s : String) : String := String.mk (s.toList.map Char.toLower)

/-! Python's `min`/`max` on floats and ints, written with an `if` so that the
kernel can evaluate them (Mathlib's lattice `min`/`max` on `ℚ` does not reduce);
`minQ_eq_min` and friends bridge to the lattice operations for reasoning. -/

/-- Python `min(a, b)` on floats. -/
def minQ (a b : ℚ) : ℚ := if b ≤ a then b else a

/-- Python `max(a, b)` on floats. -/
def maxQ (a b : ℚ) : ℚ := if a ≤ b then b else a

/-- Python `max(a, b)` on ints. -/
def maxZ (a b : Int) : Int := if a ≤ b then b else a

/-- Kernel-evaluable `⌊x⌋` for rationals (`Int.fdiv` of numerator by denominator). -/
def floorQ (x : ℚ) : Int := Int.fdiv x.num (x.den : Int)

/-! ### agents/retry_logic.py -/

/-- Classification from `call_with_retry`:
`msg = str(e).lower()` and retry only if `"429" in msg or "rate" in msg or "capacity" in msg`. -/
def isTransientMsg (msg : String) : Bool :=
  let m := lowerStr msg
  containsSub m "429" || containsSub m "rate" || containsSub m "capacity"

/-- Backoff before retry number `attempt` (1-based):
`delay = min(max_delay, base_delay * (2 ** (attempt - 1)))`. -/
def backoffDelay (baseDelay maxDelay : ℚ) (attempt : Nat) : ℚ :=
  minQ maxDelay (baseDelay * 2 ^ (attempt - 1))

/-- The retry loop of `call_with_retry`.  `outcomes` lists what each successive
invocation of `fn` does (a value or a raised exception); `jitters` lists the values
drawn by `random.uniform(0, delay * 0.3)` before each retry.  Returns the final
result (or the propagated exception) together with the list of sleep durations
(`delay + jitter`) in order.  The empty-`outcomes` case is unreachable when the
caller supplies at least `maxRetries + 1` outcomes. -/
def callWithRetryAux {α : Type} (maxRetries : Nat) (baseDelay maxDelay : ℚ) (attempt : Nat) :
    List (Except CallErr α) → List ℚ → Except CallErr α × List ℚ
  | [], _ => (Except.error (CallErr.other "model artifact: outcome list exhausted"), [])
  | o :: rest, js =>
    match o with
    | Except.ok v => (Except.ok v, [])
    | Except.error e =>
      match e with
      | CallErr.other m => (Except.error (CallErr.other m), [])
      | CallErr.sdk msg =>
        if isTransientMsg msg then
          let a := attempt + 1
          if a > maxRetries then (Except.error (CallErr.sdk msg), [])
          else
            let delay := backoffDelay baseDelay maxDelay a
            let r := callWithRetryAux maxRetries baseDelay maxDelay a rest js.tail
            (r.1, (delay + js.headD 0) :: r.2)
        else (Except.error (CallErr.sdk msg), [])

/-- Entry point of `call_with_retry` (`attempt` starts at 0). -/
def call_with_retry {α : Type} (maxRetries : Nat) (baseDelay maxDelay : ℚ)
    (outcomes : List (Except CallErr α)) (jitters : List ℚ) : Except CallErr α × List ℚ :=
  callWithRetryAux maxRetries baseDelay maxDelay 0 outcomes jitters

/-! ### app/learning/mastery.py -/

/-- Mastery increment awarded on a solve: `max(0.05, 0.2 * (1 - current))`. -/
def compute_delta (current : ℚ) : ℚ := maxQ 0.05 (0.2 * (1 - current))

/-- Target difficulty label from mastery. -/
def target_from_mastery (m : ℚ) : String :=
  if m < 0.30 then "easy" else if m < 0.70 then "medium" else "hard"

/-! ### agents/socratic.py -/

/-- Structured reply of the dialogue capability (`SocraticReply` pydantic model). -/
structure SocraticReply where
  status : String
  tutor_message : String
  expected_student_action : String
  topic_shift : Bool
  new_topic : Option String
  goal_shift : Bool
  new_goal : Option String
deriving DecidableEq, Repr

/-- Mutable locals of the line-oriented parse loop in `call_socratic_agent`. -/
structure SocParse where
  status : String
  action : String
  topic_shift : Bool
  new_topic : Option String
  goal_shift : Bool
  new_goal : Option String
  message_lines : List String
  in_message : Bool
deriving DecidableEq, Repr

/-- Python `line.split(tag, 1)[1].strip()` for a line known to start with `tag`. -/
def tagValue (line tag : String) : String := trimStr (line.drop tag.length)

/-- Python truthiness test `val in ("true", "1", "yes")` after lowering. -/
def isTruthyFlag (v : String) : Bool := v = "true" || v = "1" || v = "yes"

/-- One iteration of the `for line in lines` loop of `call_socratic_agent`. -/
def socStep (st : SocParse) (line : String) : SocParse :=
  if startsWithStr line "STATUS:" then
    { st with status := tagValue line "STATUS:", in_message := false }
  else if startsWithStr line "ACTION:" then
    { st with action := tagValue line "ACTION:", in_message := false }
  else if startsWithStr line "MESSAGE:" then
    { st with in_message := true
              message_lines := st.message_lines ++ [trimLeftStr (line.drop "MESSAGE:".length)] }
  else if startsWithStr line "TOPIC_SHIFT:" then
    { st with in_message := false
              topic_shift := isTruthyFlag (lowerStr (tagValue line "TOPIC_SHIFT:")) }
  else if startsWithStr line "NEW_TOPIC:" then
    let v := tagValue line "NEW_TOPIC:"
    { st with in_message := false, new_topic := if v = "" then none else some v }
  else if startsWithStr line "GOAL_SHIFT:" then
    { st with in_message := false
              goal_shift := isTruthyFlag (lowerStr (tagValue line "GOAL_SHIFT:")) }
  else if startsWithStr line "NEW_GOAL:" then
    let v := tagValue line "NEW_GOAL:"
    { st with in_message := false, new_goal := if v = "" then none else some v }
  else if st.in_message then { st with message_lines := st.message_lines ++ [line] }
  else st

/-- Parsing and safety clamping of the model's text output in `call_socratic_agent`.
`content` is the already-stripped completion text.  Python `splitlines` is modelled
as splitting on `"\n"` (only LF line breaks occur in the inputs considered). -/
def parseSocratic (content : String) : SocraticReply :=
  let lines := ((splitStr '\n' content).map trimStr).filter (fun l => l ≠ "")
  let st0 : SocParse :=
    { status := "ONGOING", action := "ASK_QUESTION", topic_shift := false, new_topic := none,
      goal_shift := false, new_goal := none, message_lines := [], in_message := false }
  let p := lines.foldl socStep st0
  let message := if p.message_lines ≠ [] then trimStr (String.intercalate "\n" p.message_lines)
                 else content
  let status := if p.status = "ONGOING" || p.status = "SOLVED" || p.status = "GIVE_UP"
                then p.status else "ONGOING"
  let action := if p.action = "WRITE_ANSWER" || p.action = "REFLECT" || p.action = "ASK_QUESTION"
                then p.action else "ASK_QUESTION"
  let goal_shift := if p.topic_shift then false else p.goal_shift
  let new_goal0 := if p.topic_shift then none else p.new_goal
  let new_topic := if p.topic_shift then p.new_topic else none
  let new_goal := if goal_shift then new_goal0 else none
  { status := status, tutor_message := message, expected_student_action := action,
    topic_shift := p.topic_shift, new_topic := new_topic, goal_shift := goal_shift,
    new_goal := new_goal }

/-- The fixed degraded reply returned by `call_socratic_agent` when the wrapped
model call raises `SDKError` (non-transient, or retries exhausted). -/
def socratic_error_reply : SocraticReply :=
  { status := "ONGOING",
    tutor_message := "I had a technical issue generating a reply 😅 try again in a moment.",
    expected_student_action := "ASK_QUESTION",
    topic_shift := false, new_topic := none, goal_shift := false, new_goal := none }

/-- The dialogue capability wrapper.  Its argument is the outcome of the
retry-wrapped model call (`call_with_retry(...)`): the completion text on success,
or the exception that escaped the retry wrapper.  An `SDKError` is caught and
converted into `socratic_error_reply`; any other exception propagates
(`Except.error`). -/
def call_socratic_agent (retryResult : Except CallErr String) : Except String SocraticReply :=
  match retryResult with
  | Except.error (CallErr.sdk _) => Except.ok socratic_error_reply
  | Except.error (CallErr.other m) => Except.error m
  | Except.ok content => Except.ok (parseSocratic (trimStr content))

/-! ### agents/learning.py and agents/planner.py (payload types)

The parsing of these two capabilities is not needed by any claim; their results
enter the controller as oracle values of the following shapes. -/

/-- Output of `call_learning_agent` (`LearningExtract` pydantic model). -/
structure LearningExtract where
  skills : List String
  reason : String
deriving DecidableEq, Repr

/-- Output of `call_planner_agent` (`PlannerOutput` pydantic model). -/
structure PlannerOutput where
  mode : String
  target_skills : List String
  question_type : String
  difficulty : ℚ
  hint_policy : String
  goal : String
  needed_help : Bool
  context_tag : Option String
deriving DecidableEq, Repr

/-! ### The Plan payload (a Python dict in the source)

The controller stores plans as loosely-typed dicts.  The keys `steps_used`,
`step_budget` and `topic` may be absent on a freshly dumped `PlannerOutput`
(`model_dump()` has no such keys), so these three fields are `Option`s and reads
use the source's `dict.get` defaults.  All other keys are present on every dict
the program builds. -/

structure Plan where
  topic : Option String
  mode : String
  target_skills : List String
  question_type : String
  difficulty : ℚ
  hint_policy : String
  goal : String
  needed_help : Bool
  context_tag : Option String
  steps_used : Option Int
  step_budget : Option Int
deriving DecidableEq, Repr

/-- Python `round(x, 2)`, modelled as round-half-to-even on exact rationals. -/
def round2 (x : ℚ) : ℚ :=
  let y := x * 100
  let n : Int := floorQ y
  let r := y - n
  let m : Int := if r > 1/2 then n + 1 else if r < 1/2 then n else if n % 2 = 0 then n else n + 1
  (m : ℚ) / 100

/-- `ensure_plan` from app/controller.py: normalize an existing plan
(`setdefault` of the step counters, overwrite `topic`) or build the warm-up
default plan. -/
def ensure_plan (plan : Option Plan) (topic : String) (topic_mastery : ℚ)
    (target_difficulty : String) : Plan :=
  match plan with
  | some p =>
    { p with steps_used := some (p.steps_used.getD 0)
             step_budget := some (p.step_budget.getD 6)
             topic := some topic }
  | none =>
    let base_diff : ℚ :=
      if target_difficulty = "easy" then 0.30
      else if target_difficulty = "medium" then 0.55
      else 0.75
    let base_diff := maxQ 0.10 (minQ 0.95 (base_diff + (topic_mastery - 0.5) * 0.2))
    { topic := some topic, mode := "reinforce", target_skills := [], question_type := "apply",
      difficulty := round2 base_diff, hint_policy := "medium",
      goal := "Warm-up and diagnose understanding of " ++ topic,
      needed_help := false, context_tag := some "warmup",
      steps_used := some 0, step_budget := some 6 }

/-- `PlannerOutput.model_dump()`: a plan dict without `topic`, `steps_used`,
`step_budget` keys. -/
def PlannerOutput.toPlan (p : PlannerOutput) : Plan :=
  { topic := none, mode := p.mode, target_skills := p.target_skills,
    question_type := p.question_type, difficulty := p.difficulty,
    hint_policy := p.hint_policy, goal := p.goal, needed_help := p.needed_help,
    context_tag := p.context_tag, steps_used := none, step_budget := none }

/-! ### app/storage/sqlite_store.py — the state repository

Rows are modelled as records in insertion order; primary-key upserts replace the
matching row in place.  Timestamp columns are omitted. -/

/-- A row of `interactions` (the `Interaction` pydantic model). -/
structure Interaction where
  interaction_id : String
  session_id : String
  turn_index : Nat
  speaker : String
  agent_role : String
  content : String
  status : Option String
  hint_policy : Option String
deriving DecidableEq, Repr

/-- A row of `sessions`. -/
structure Session where
  session_id : String
  user_id : String
  topic : String
  difficulty_mode : String
  manual_target_difficulty : String
deriving DecidableEq, Repr

/-- A row of `progress_snapshots`; `skills_json` is carried as the decoded list. -/
structure Snapshot where
  snapshot_id : String
  user_id : String
  topic : String
  mastery_delta : ℚ
  reason : String
  skills : List String
deriving DecidableEq, Repr

/-- A row of `student_skills`. -/
structure SkillRow where
  user_id : String
  topic : String
  skill_id : String
  count : Int
  mastery : ℚ
  needs_reinforcement : Bool
  contexts_seen : String
deriving DecidableEq, Repr

/-- A row of `session_stats`. -/
structure StatsRow where
  session_id : String
  user_id : String
  topic : String
  attempts : Int
  solved_count : Int
  avg_steps_to_solve : Option ℚ
  hint_count : Int
  mastery_delta : Option ℚ
deriving DecidableEq, Repr

/-- The whole persistent state, plus the fresh-id counter and a ghost trace of
`call_planner_agent` invocations (call site, `learning_reason` argument). -/
structure Store where
  users : List String
  sessions : List Session
  interactions : List Interaction
  snapshots : List Snapshot
  skills : List SkillRow
  topic_diff : List (String × String × ℚ)
  plans : List (String × Plan)
  stats : List (String × StatsRow)
  planner_calls : List (String × String)
  next_id : Nat
deriving DecidableEq, Repr

/-- Rows keyed by a string primary key: lookup of the first matching row. -/
def lookupBy {β : Type} (l : List (String × β)) (k : String) : Option β :=
  (l.find? (fun r => r.1 == k)).map (fun r => r.2)

/-- Row-replacing upsert for rows whose primary key is tested by a predicate. -/
def upsertRow {β : Type} (p : β → Bool) (l : List β) (v : β) : List β :=
  if l.any p then l.map (fun t => if p t then v else t) else l ++ [v]

/-- Rows keyed by a string primary key: `INSERT ... ON CONFLICT DO UPDATE` that
replaces the whole row. -/
def upsertBy {β : Type} (l : List (String × β)) (k : String) (v : β) : List (String × β) :=
  upsertRow (fun r => r.1 == k) l (k, v)

/-- `uuid.uuid4().hex[:8]` modelled by a fresh counter. -/
def fresh_id (st : Store) (pfx : String) : String × Store :=
  (pfx ++ "_" ++ toString st.next_id, { st with next_id := st.next_id + 1 })

/-- `save_interaction`: plain INSERT. -/
def save_interaction (st : Store) (i : Interaction) : Store :=
  { st with interactions := st.interactions ++ [i] }

/-- `get_user` succeeds iff the user row exists (its payload is only used for
prompt construction). -/
def user_exists (st : Store) (uid : String) : Bool := st.users.contains uid

/-- `save_session`: INSERT, or on conflict update `topic`, `difficulty_mode`,
`manual_target_difficulty` (not `user_id`). -/
def save_session (st : Store) (s : Session) : Store :=
  { st with sessions :=
      if st.sessions.any (fun t => t.session_id == s.session_id) then
        st.sessions.map (fun t =>
          if t.session_id == s.session_id then
            { t with topic := s.topic, difficulty_mode := s.difficulty_mode,
                     manual_target_difficulty := s.manual_target_difficulty }
          else t)
      else st.sessions ++ [s] }

/-- `get_session` (the KeyError on a missing row is handled at the call site). -/
def get_session (st : Store) (sid : String) : Option Session :=
  st.sessions.find? (fun t => t.session_id == sid)

/-- `get_next_turn_index`: `COALESCE(MAX(turn_index), -1) + 1` for the session. -/
def get_next_turn_index (st : Store) (sid : String) : Nat :=
  ((st.interactions.filter (fun i => i.session_id == sid)).map (fun i => i.turn_index)).foldl
    (fun a b => max a (b + 1)) 0

/-- `list_interactions`: the `limit` most recent rows, chronological.  Interactions
are appended in increasing `turn_index` order, so store order is `turn_index`
order and the SQL `ORDER BY turn_index DESC LIMIT n` + reverse is the list tail. -/
def list_interactions (st : Store) (sid : String) (limit : Nat) : List Interaction :=
  let rows := st.interactions.filter (fun i => i.session_id == sid)
  rows.drop (rows.length - limit)

/-- `save_progress`: plain INSERT of a snapshot. -/
def save_progress (st : Store) (s : Snapshot) : Store :=
  { st with snapshots := st.snapshots ++ [s] }

/-- `get_topic_mastery`: sum of the recorded deltas for (user, topic), capped at 1. -/
def get_topic_mastery (st : Store) (uid topic : String) : ℚ :=
  minQ 1 (((st.snapshots.filter (fun s => s.user_id == uid && s.topic == topic)).map
    (fun s => s.mastery_delta)).sum)

/-- Lookup in `student_skills` by primary key. -/
def skills_get (st : Store) (uid topic skill : String) : Option SkillRow :=
  st.skills.find? (fun r => r.user_id == uid && r.topic == topic && r.skill_id == skill)

/-- Primary-key upsert into `student_skills`. -/
def skills_put (st : Store) (r : SkillRow) : Store :=
  let p := fun (t : SkillRow) =>
    t.user_id == r.user_id && t.topic == r.topic && t.skill_id == r.skill_id
  { st with skills := upsertRow p st.skills r }

/-- `_clamp(x, lo, hi)`. -/
def clampQ (x lo hi : ℚ) : ℚ := maxQ lo (minQ hi x)

/-- `_merge_context`: append the tag to the comma-separated context list if new. -/
def merge_context (contexts_seen : String) (new_tag : Option String) : String :=
  match new_tag with
  | none => contexts_seen
  | some t =>
    if t = "" then contexts_seen
    else
      let existing := (splitStr ',' contexts_seen).filter (fun c => trimStr c ≠ "")
      if existing.contains t then String.intercalate "," existing
      else String.intercalate "," (existing ++ [t])

/-- `upsert_student_skill`: first exposure initializes mastery at `0.35 + inc`;
later exposures add `inc`; clamp to `[0, 0.95]`;
`needs_reinforcement = (mastery < 0.6 or count < 2)`. -/
def upsert_student_skill (st : Store) (uid topic skill : String) (needed_help : Bool)
    (context_tag : Option String) : Store :=
  let inc : ℚ := if needed_help then 0.05 else 0.15
  let prev := skills_get st uid topic skill
  let count : Int := match prev with | none => 1 | some r => r.count + 1
  let mastery : ℚ := match prev with
    | none => clampQ (0.35 + inc) 0 0.95
    | some r => clampQ (r.mastery + inc) 0 0.95
  let contexts_seen := match prev with
    | none => merge_context "" context_tag
    | some r => merge_context r.contexts_seen context_tag
  let needs := decide (mastery < 0.6) || decide (count < 2)
  skills_put st { user_id := uid, topic := topic, skill_id := skill, count := count,
                  mastery := mastery, needs_reinforcement := needs,
                  contexts_seen := contexts_seen }

/-- `get_topic_difficulty` (default 0.5). -/
def get_topic_difficulty (st : Store) (uid topic : String) : ℚ :=
  match st.topic_diff.find? (fun r => r.1 == uid && r.2.1 == topic) with
  | some r => r.2.2
  | none => 0.5

/-- `set_topic_difficulty`: clamp to `[0.1, 0.95]`, then upsert. -/
def set_topic_difficulty (st : Store) (uid topic : String) (difficulty : ℚ) : Store :=
  let d := clampQ difficulty 0.1 0.95
  { st with topic_diff :=
      if st.topic_diff.any (fun r => r.1 == uid && r.2.1 == topic) then
        st.topic_diff.map (fun r => if r.1 == uid && r.2.1 == topic then (uid, topic, d) else r)
      else st.topic_diff ++ [(uid, topic, d)] }

/-- `update_student_model_from_learning`: upsert the first 5 non-blank skills,
then nudge the topic difficulty. -/
def update_student_model_from_learning (st : Store) (uid topic : String)
    (skills : List String) (needed_help : Bool) (context_tag : Option String) : Store :=
  let st1 := (skills.take 5).foldl
    (fun s sk =>
      if trimStr sk ≠ "" then
        upsert_student_skill s uid topic (trimStr sk) needed_help context_tag
      else s) st
  let cur_diff := get_topic_difficulty st1 uid topic
  let new_diff := if needed_help then cur_diff - 0.10 else cur_diff + 0.05
  set_topic_difficulty st1 uid topic new_diff

/-- `get_session_plan`. -/
def get_session_plan (st : Store) (sid : String) : Option Plan :=
  lookupBy st.plans sid

/-- `save_session_plan`: primary-key upsert of the whole plan payload. -/
def save_session_plan (st : Store) (sid : String) (p : Plan) : Store :=
  { st with plans := upsertBy st.plans sid p }

/-- `get_session_stats`. -/
def get_session_stats (st : Store) (sid : String) : Option StatsRow :=
  lookupBy st.stats sid

/-- `upsert_session_stats`: primary-key upsert of the whole stats row. -/
def upsert_session_stats (st : Store) (sid : String) (row : StatsRow) : Store :=
  { st with stats := upsertBy st.stats sid row }

/-! ### app/controller.py -/

/-- `_hint_is_high`: `(hint_policy or "").lower() == "high"`. -/
def hint_is_high (hint_policy : Option String) : Bool :=
  lowerStr (hint_policy.getD "") == "high"

/-- The local defaults of `_update_session_stats_after_turn` when no stats row
exists yet (`attempts = 0`, `solved = 0`, `hint_count = 0`, `avg_steps = None`,
`prev_mastery_delta = None`). -/
def statsD (st : Store) (sid uid topic : String) : StatsRow :=
  (get_session_stats st sid).getD
    { session_id := sid, user_id := uid, topic := topic, attempts := 0, solved_count := 0,
      avg_steps_to_solve := none, hint_count := 0, mastery_delta := none }

/-- `_update_session_stats_after_turn`: the per-turn incremental stats update. -/
def update_session_stats_after_turn (st : Store) (sid uid topic : String)
    (tutor_status : String) (hint_policy : Option String)
    (steps_used_before_reply : Int) (mastery_delta : Option ℚ) : Store :=
  let row := statsD st sid uid topic
  let attempts : Int := row.attempts
  let solved : Int := row.solved_count
  let hint_count : Int := row.hint_count
  let avg_steps : Option ℚ := row.avg_steps_to_solve
  let prev_md : Option ℚ := row.mastery_delta
  let md := match mastery_delta with | some d => some d | none => prev_md
  let attempts := attempts + 1
  let hint_count := if hint_is_high hint_policy then hint_count + 1 else hint_count
  let solvedAvg : Int × Option ℚ :=
    if tutor_status == "SOLVED" then
      let solved := solved + 1
      let steps_to_solve : Int := maxZ 1 (steps_used_before_reply + 1)
      let avg : ℚ := match avg_steps with
        | none => (steps_to_solve : ℚ)
        | some a => (a * ((solved - 1 : Int) : ℚ) + (steps_to_solve : ℚ)) / ((solved : Int) : ℚ)
      (solved, some avg)
    else (solved, avg_steps)
  upsert_session_stats st sid
    { session_id := sid, user_id := uid, topic := topic, attempts := attempts,
      solved_count := solvedAvg.1, avg_steps_to_solve := solvedAvg.2,
      hint_count := hint_count, mastery_delta := md }

/-- Ghost trace entry for one `call_planner_agent` invocation. -/
def log_planner_call (st : Store) (site reason : String) : Store :=
  { st with planner_calls := st.planner_calls ++ [(site, reason)] }

/-- Oracle outcomes of the external capabilities during one turn.
`planner` is keyed by the call site (`"topic_shift"`, `"post_solve"`,
`"post_solve_retry"`, `"checkpoint"`); each site is consulted at most once per
turn.  `learning` is the result of `call_learning_agent` as seen by the
controller: a value (possibly the degraded default the agent returns on
`SDKError`), or a raised non-SDK exception.  `dev_override` is the process-wide
developer mastery-override map. -/
structure Env where
  socratic : Except CallErr String
  learning : Except String LearningExtract
  planner : String → Except String PlannerOutput
  dev_override : String → String → Option ℚ

/-- Controller lines 177-179: computed topic mastery, overridden by the developer
override when present. -/
def resolved_mastery (env : Env) (st : Store) (user_id topic : String) : ℚ :=
  (env.dev_override user_id topic).getD (get_topic_mastery st user_id topic)

/-- Controller lines 180-183: manual target difficulty, or the mastery-derived one. -/
def resolved_target (env : Env) (st : Store) (user_id : String) (sess : Session) : String :=
  if sess.difficulty_mode == "manual" then sess.manual_target_difficulty
  else target_from_mastery (resolved_mastery env st user_id sess.topic)

/-- The three-line plan normalization repeated after each planner call
(`topic`, `steps_used = 0`, `step_budget` defaulted to 6). -/
def normalize_next_plan (topic : String) (p : Plan) : Plan :=
  { p with topic := some topic
           steps_used := some 0
           step_budget := some (p.step_budget.getD 6) }

/-- The first post-solve candidate plan (controller lines 390-411): the planner
output — or, on planner failure, the counter-reset current plan — normalized.
`pl` is the turn's ensured plan before its counter reset. -/
def first_next_plan (env : Env) (topic : String) (pl : Plan) : Plan :=
  normalize_next_plan topic
    (match env.planner "post_solve" with
     | Except.ok p => p.toPlan
     | Except.error _ => { pl with steps_used := some 0 })

/-- The dict returned on the early-return paths of `handle_student_message`. -/
structure TurnReply where
  status : String
  action : String
  tutor_message : String
  topic_shift : Bool
  new_topic : Option String
  new_session_id : Option String
deriving DecidableEq, Repr

/-- Result of `handle_student_message`: a dict, the `SocraticReply` object, or a
propagated lookup error (missing user/session). -/
inductive HandleResult where
  | dict (d : TurnReply)
  | reply (r : SocraticReply)
  | fatal (msg : String)
deriving DecidableEq, Repr

/-- A dict carrying only status/action/message. -/
def simpleReply (status action msg : String) : HandleResult :=
  HandleResult.dict { status := status, action := action, tutor_message := msg,
                      topic_shift := false, new_topic := none, new_session_id := none }

/-- The tutor `Interaction` persisted on the goal-shift and normal branches:
the reply's message and status, the hint policy of the given plan, and the turn
index following the student's. -/
def tutor_turn (st : Store) (sid : String) (turn_index : Nat) (p : Plan)
    (sos : SocraticReply) : Interaction :=
  { interaction_id := (fresh_id st "i").1, session_id := sid, turn_index := turn_index + 1,
    speaker := "tutor", agent_role := "socratic_tutor", content := sos.tutor_message,
    status := some sos.status, hint_policy := some p.hint_policy }

/-- The topic-shift branch of `handle_student_message` (controller.py lines 211-274). -/
def topic_shift_branch (env : Env) (st : Store) (user_id sid : String) (turn_index : Nat)
    (active_plan : Plan) (sos : SocraticReply) : HandleResult × Store :=
  let new_topic := trimStr (sos.new_topic.getD "")
  let (iid, st) := fresh_id st "i"
  let tutor_interaction : Interaction :=
    { interaction_id := iid, session_id := sid, turn_index := turn_index + 1,
      speaker := "tutor", agent_role := "socratic_tutor",
      content := sos.tutor_message ++ "\n\n✅ New session created for: " ++ new_topic,
      status := some sos.status, hint_policy := some active_plan.hint_policy }
  let st := save_interaction st tutor_interaction
  let (nsid, st) := fresh_id st "s"
  let new_session : Session :=
    { session_id := nsid, user_id := user_id, topic := new_topic,
      difficulty_mode := "auto", manual_target_difficulty := "medium" }
  let st := save_session st new_session
  let new_mastery := resolved_mastery env st user_id new_topic
  let new_target := target_from_mastery new_mastery
  let st := log_planner_call st "topic_shift" "topic_shift_new_session"
  let new_plan :=
    match env.planner "topic_shift" with
    | Except.ok p => p.toPlan
    | Except.error _ => ensure_plan none new_topic new_mastery new_target
  let new_plan := normalize_next_plan new_topic new_plan
  let st := save_session_plan st nsid new_plan
  (HandleResult.dict { status := sos.status
                       action := sos.expected_student_action
                       tutor_message := sos.tutor_message
                       topic_shift := true
                       new_topic := some new_topic
                       new_session_id := some nsid }, st)

/-- The goal-shift branch of `handle_student_message` (controller.py lines 276-308).
The `get_session_plan(session_id) or {}` lookup always finds the plan saved
earlier in the same call, so the empty-dict fallback is unreachable; a missing
plan is modelled by the defaulting rule. -/
def goal_shift_branch (st : Store) (sid : String) (session : Session) (mastery : ℚ)
    (target : String) (turn_index : Nat) (sos : SocraticReply) : HandleResult × Store :=
  let plan := ensure_plan (get_session_plan st sid) session.topic mastery target
  let plan := { plan with goal := sos.new_goal.getD ""
                          mode := "advance"
                          question_type := "explain"
                          target_skills := ([] : List String)
                          context_tag := some "user_request"
                          needed_help := false
                          steps_used := some 0
                          step_budget := some (plan.step_budget.getD 6)
                          topic := some session.topic }
  let st := save_session_plan st sid plan
  let tutor_interaction := tutor_turn st sid turn_index plan sos
  let st := save_interaction (fresh_id st "i").2 tutor_interaction
  (HandleResult.reply sos, st)

/-- The post-SOLVED tail of the normal branch (controller.py lines 349-435). -/
def solved_tail (env : Env) (st : Store) (user_id sid : String) (session : Session)
    (active_plan plan : Plan) (sos : SocraticReply) (delta_for_stats : Option ℚ) :
    HandleResult × Store :=
  match env.learning with
  | Except.error _ =>
    let st := save_session_plan st sid plan
    (HandleResult.reply sos, st)
  | Except.ok learning =>
    let delta := delta_for_stats.getD (compute_delta (get_topic_mastery st user_id session.topic))
    let (pid, st) := fresh_id st "p"
    let snapshot : Snapshot :=
      { snapshot_id := pid, user_id := user_id, topic := session.topic,
        mastery_delta := delta, reason := learning.reason, skills := learning.skills }
    let st := save_progress st snapshot
    let st := update_student_model_from_learning st user_id session.topic learning.skills
                false none
    let st := log_planner_call st "post_solve" learning.reason
    let next_plan := first_next_plan env session.topic plan
    let just_solved_goal := active_plan.goal
    let npst : Plan × Store :=
      if next_plan.goal == just_solved_goal then
        let st := log_planner_call st "post_solve_retry" "avoid_repeat_goal"
        let np :=
          match env.planner "post_solve_retry" with
          | Except.ok p => p.toPlan
          | Except.error _ => next_plan
        (normalize_next_plan session.topic np, st)
      else (next_plan, st)
    let st := save_session_plan npst.2 sid npst.1
    (HandleResult.reply sos, st)

/-- The not-SOLVED tail of the normal branch (controller.py lines 437-466). -/
def unsolved_tail (env : Env) (st : Store) (sid : String) (session : Session) (plan : Plan)
    (sos : SocraticReply) (force_refresh : Bool) : HandleResult × Store :=
  let step_budget := plan.step_budget.getD 6
  let refresh := force_refresh || decide (plan.steps_used.getD 0 ≥ step_budget)
  let pst : Plan × Store :=
    if refresh then
      let st := log_planner_call st "checkpoint" "checkpoint_refresh"
      match env.planner "checkpoint" with
      | Except.ok p =>
        ({ p.toPlan with topic := some session.topic
                         steps_used := some 0
                         step_budget := some 6 }, st)
      | Except.error _ => ({ plan with steps_used := some 0 }, st)
    else (plan, st)
  let st := save_session_plan pst.2 sid pst.1
  (HandleResult.reply sos, st)

/-- The normal-turn branch of `handle_student_message` (controller.py lines 310-466). -/
def normal_branch (env : Env) (st : Store) (user_id sid : String) (session : Session)
    (mastery : ℚ) (target : String) (turn_index : Nat) (active_plan plan : Plan)
    (sos : SocraticReply) (force_refresh : Bool) : HandleResult × Store :=
  let tutor_interaction := tutor_turn st sid turn_index active_plan sos
  let st := save_interaction (fresh_id st "i").2 tutor_interaction
  let is_done := sos.status == "SOLVED"
  let delta_for_stats : Option ℚ :=
    if is_done then some (compute_delta (get_topic_mastery st user_id session.topic)) else none
  let st := update_session_stats_after_turn st sid user_id session.topic sos.status
              (some active_plan.hint_policy) (plan.steps_used.getD 0) delta_for_stats
  let plan := ensure_plan (some plan) session.topic mastery target
  let plan := if !is_done then { plan with steps_used := some (plan.steps_used.getD 0 + 1) }
              else plan
  if is_done then solved_tail env st user_id sid session active_plan plan sos delta_for_stats
  else unsolved_tail env st sid session plan sos force_refresh

/-- Branch dispatch on the reply shape (topic shift, goal shift, normal turn). -/
def after_socratic (env : Env) (st : Store) (user_id sid : String) (session : Session)
    (mastery : ℚ) (target : String) (turn_index : Nat) (active_plan plan : Plan)
    (sos : SocraticReply) (force_refresh : Bool) : HandleResult × Store :=
  if sos.topic_shift = true ∧ sos.new_topic.getD "" ≠ "" then
    topic_shift_branch env st user_id sid turn_index active_plan sos
  else if sos.goal_shift = true ∧ sos.new_goal.getD "" ≠ "" then
    goal_shift_branch st sid session mastery target turn_index sos
  else
    normal_branch env st user_id sid session mastery target turn_index active_plan plan sos
      force_refresh

/-- Controller lines 160-168: the student `Interaction` for this turn. -/
def student_turn (st : Store) (sid msg : String) : Interaction :=
  { interaction_id := (fresh_id st "i").1, session_id := sid,
    turn_index := get_next_turn_index st sid, speaker := "student", agent_role := "system",
    content := msg, status := none, hint_policy := none }

/-- Controller lines 157-169: the store after persisting the student's turn
(`fresh_id` bumps the id counter, `save_interaction` appends the row). -/
def logged_student_store (st : Store) (sid msg : String) : Store :=
  save_interaction (fresh_id st "i").2 (student_turn st sid msg)

/-- Controller lines 187-188: the ensured plan for this turn (loaded plan
normalized, or the warm-up default). -/
def turn_plan (env : Env) (st : Store) (u : String) (sess : Session) (sid : String) : Plan :=
  ensure_plan (get_session_plan st sid) sess.topic (resolved_mastery env st u sess.topic)
    (resolved_target env st u sess)

/-- `handle_student_message` after the input checks: log the student turn, resolve
mastery/target, ensure and save the plan, run the dialogue capability, dispatch. -/
def handle_after_checks (env : Env) (st : Store) (user_id sid msg : String)
    (force_refresh : Bool) : HandleResult × Store :=
  let turn_index := get_next_turn_index st sid
  let st := logged_student_store st sid msg
  if user_exists st user_id = false then
    (HandleResult.fatal ("User not found: " ++ user_id), st)
  else
    match get_session st sid with
    | none => (HandleResult.fatal ("Session not found: " ++ sid), st)
    | some session =>
      let mastery := resolved_mastery env st user_id session.topic
      let target := resolved_target env st user_id session
      let plan := ensure_plan (get_session_plan st sid) session.topic mastery target
      let st := save_session_plan st sid plan
      match call_socratic_agent env.socratic with
      | Except.error _ =>
        (simpleReply "ONGOING" "ASK_QUESTION" "Model error (rate limit). Try again.", st)
      | Except.ok sos =>
        after_socratic env st user_id sid session mastery target turn_index plan plan
          sos force_refresh

/-- `handle_student_message` (controller.py lines 131-466). -/
def handle_student_message (env : Env) (st : Store) (user_id sid student_message : String)
    (force_refresh : Bool) : HandleResult × Store :=
  let msg := trimStr student_message
  if msg = "" ∧ force_refresh = false then
    (simpleReply "ONGOING" "ASK_QUESTION" "Send an answer.", st)
  else if startsWithStr msg "/" then
    (simpleReply "ONGOING" "NOOP"
      "Command received. (This should be handled by CLI, not controller.)", st)
  else
    handle_after_checks env st user_id sid msg force_refresh

/-- The session's persisted turn indices, in insertion order. -/
def session_turn_indices (st : Store) (sid : String) : List Nat :=
  (st.interactions.filter (fun i => i.session_id == sid)).map (fun i => i.turn_index)

/-- The session's turn indices are exactly `0, 1, ..., len-1`: strictly
increasing with no gaps. -/
@[reducible]
def TurnIndexOk (st : Store) (sid : String) : Prop :=
  session_turn_indices st sid = List.range (session_turn_indices st sid).length

/-! ## Proof infrastructure -/

/-- A store with no rows (fresh database). -/
def emptyStore : Store :=
  { users := [], sessions := [], interactions := [], snapshots := [], skills := [],
    topic_diff := [], plans := [], stats := [], planner_calls := [], next_id := 0 }

/-! Concrete fixtures used by witnesses and counterexamples. -/

/-- A session for user `"u"` on topic `"math"`. -/
def baseSession : Session :=
  { session_id := "s", user_id := "u", topic := "math", difficulty_mode := "auto",
    manual_target_difficulty := "medium" }

/-- A store holding just that user and session. -/
def baseStore : Store := { emptyStore with users := ["u"], sessions := [baseSession] }

/-- An environment with the given capability outcomes and no developer override. -/
def mkEnv (soc : Except CallErr String) (lrn : Except String LearningExtract)
    (pln : String → Except String PlannerOutput) : Env :=
  { socratic := soc, learning := lrn, planner := pln, dev_override := fun _ _ => none }

/-- Model completion text parsed to a plain ONGOING reply. -/
def ongoingContent : String := "STATUS: ONGOING\nACTION: ASK_QUESTION\nMESSAGE: ok."

/-- The reply parsed from `ongoingContent`. -/
def ongoingReply : SocraticReply :=
  { status := "ONGOING", tutor_message := "ok.", expected_student_action := "ASK_QUESTION",
    topic_shift := false, new_topic := none, goal_shift := false, new_goal := none }

/-- Model completion text parsed to a SOLVED reply. -/
def solvedContent : String := "STATUS: SOLVED\nACTION: REFLECT\nMESSAGE: done."

/-- The reply parsed from `solvedContent`. -/
def solvedReply : SocraticReply :=
  { status := "SOLVED", tutor_message := "done.", expected_student_action := "REFLECT",
    topic_shift := false, new_topic := none, goal_shift := false, new_goal := none }

/-- A normalized plan for `"math"` with 5 of 6 steps used. -/
def plan5 : Plan :=
  { topic := some "math", mode := "reinforce", target_skills := [], question_type := "apply",
    difficulty := 0.5, hint_policy := "medium", goal := "g", needed_help := false,
    context_tag := none, steps_used := some 5, step_budget := some 6 }

/-- `baseStore` with `plan5` installed for session `"s"`. -/
def storeC5 : Store := { baseStore with plans := [("s", plan5)] }

/-- Environment for the C5 witness: a normal ONGOING turn with a failing planner. -/
def envC5 : Env :=
  mkEnv (Except.ok ongoingContent) (Except.error "unused") (fun _ => Except.error "down")

/-- Environment for C1: the dialogue wrapper raises a non-SDK exception. -/
def envC1 : Env :=
  mkEnv (Except.error (CallErr.other "boom")) (Except.error "unused")
    (fun _ => Except.error "unused")

/-- `plan5` with 3 of 6 steps used. -/
def plan3 : Plan := { plan5 with steps_used := some 3 }

/-- `baseStore` with `plan3` installed for session `"s"`. -/
def storeC2 : Store := { baseStore with plans := [("s", plan3)] }

/-- A learning-capability result with no extracted skills. -/
def lrnC2 : LearningExtract := { skills := [], reason := "r" }

/-- Environment for the C2 witness: a SOLVED turn, skill extraction succeeds,
the planner fails. -/
def envC2 : Env :=
  mkEnv (Except.ok solvedContent) (Except.ok lrnC2) (fun _ => Except.error "down")

/-- Environment for the C2 counterexample: a SOLVED turn whose skill-extraction
call raises. -/
def envC2err : Env :=
  mkEnv (Except.ok solvedContent) (Except.error "llm down") (fun _ => Except.error "down")

/-- A planner output whose goal repeats the goal `"g"` of `plan5`/`plan3`. -/
def pOutG : PlannerOutput :=
  { mode := "reinforce", target_skills := [], question_type := "apply", difficulty := 0.5,
    hint_policy := "medium", goal := "g", needed_help := false, context_tag := none }

/-- A planner output with the fresh goal `"g2"`. -/
def pOutG2 : PlannerOutput := { pOutG with goal := "g2" }

/-- Environment for the C3 witness: the first post-solve plan repeats the solved
goal, the corrective re-plan returns a fresh goal. -/
def envC3 : Env :=
  mkEnv (Except.ok solvedContent) (Except.ok lrnC2)
    (fun site =>
      if site == "post_solve" then Except.ok pOutG
      else if site == "post_solve_retry" then Except.ok pOutG2
      else Except.error "down")

/-- Environment for the C3 counterexample: the first post-solve plan repeats the
solved goal and the corrective re-plan fails, so the repeated goal is kept. -/
def envC3err : Env :=
  mkEnv (Except.ok solvedContent) (Except.ok lrnC2)
    (fun site => if site == "post_solve" then Except.ok pOutG else Except.error "down")

/-- Model completion text announcing a topic shift to `"physics"`. -/
def shiftContent : String :=
  "STATUS: ONGOING\nACTION: ASK_QUESTION\nMESSAGE: ok.\nTOPIC_SHIFT: true\nNEW_TOPIC: physics"

/-- The reply parsed from `shiftContent`. -/
def shiftReply : SocraticReply :=
  { status := "ONGOING", tutor_message := "ok.", expected_student_action := "ASK_QUESTION",
    topic_shift := true, new_topic := some "physics", goal_shift := false, new_goal := none }

/-- Environment for the C8 witness: a topic-shift reply with a failing planner. -/
def envC8 : Env :=
  mkEnv (Except.ok shiftContent) (Except.error "unused") (fun _ => Except.error "down")

theorem find?_map_replace_self {β : Type} (p : β → Bool) (l : List β) (v : β)
    (hv : p v = true) (h : l.any p = true) :
    (l.map (fun t => if p t then v else t)).find? p = some v := by
  induction l with
  | nil => simp at h
  | cons a t ih =>
    by_cases ha : p a
    · simp only [List.map_cons, if_pos ha]
      rw [List.find?_cons_of_pos _ hv]
    · have ht : t.any p = true := by simpa [List.any_cons, ha] using h
      simp only [List.map_cons, if_neg ha]
      rw [List.find?_cons_of_neg _ (by simpa using ha)]
      exact ih ht

theorem find?_append_last {β : Type} (p : β → Bool) (l : List β) (v : β)
    (hv : p v = true) (h : l.find? p = none) :
    (l ++ [v]).find? p = some v := by
  induction l with
  | nil => simpa using List.find?_cons_of_pos ([] : List β) hv
  | cons a t ih =>
    rw [List.find?_cons] at h
    by_cases ha : p a
    · simp [ha] at h
    · simp only [ha, Bool.false_eq_true, if_false] at h
      rw [List.cons_append, List.find?_cons_of_neg _ (by simpa using ha)]
      exact ih h

theorem find?_upsertRow_self {β : Type} (p : β → Bool) (l : List β) (v : β) (hv : p v = true) :
    (upsertRow p l v).find? p = some v := by
  unfold upsertRow
  by_cases h : l.any p
  · rw [if_pos h]
    exact find?_map_replace_self p l v hv h
  · rw [if_neg h]
    refine find?_append_last p l v hv ?_
    rw [List.find?_eq_none]
    intro x hx hpx
    exact h (List.any_eq_true.mpr ⟨x, hx, hpx⟩)

theorem lookupBy_upsertBy_self {β : Type} (l : List (String × β)) (k : String) (v : β) :
    lookupBy (upsertBy l k v) k = some v := by
  unfold lookupBy upsertBy
  rw [find?_upsertRow_self]
  · rfl
  · simp

theorem find?_upsertRow_of_ne {β : Type} (p q : β → Bool) (l : List β) (v : β)
    (hpq : ∀ x, p x = true → q x = false) (hqv : q v = false) :
    (upsertRow p l v).find? q = l.find? q := by
  unfold upsertRow
  by_cases h : l.any p
  · rw [if_pos h]
    clear h
    induction l with
    | nil => rfl
    | cons a t ih =>
      by_cases ha : p a
      · have hqa : q a = false := hpq a ha
        simp only [List.map_cons, if_pos ha, List.find?_cons, hqa, hqv]
        exact ih
      · simp only [List.map_cons, if_neg ha, List.find?_cons]
        cases hqa : q a
        · exact ih
        · rfl
  · rw [if_neg h]
    clear h
    induction l with
    | nil => simp [List.find?, hqv]
    | cons a t ih =>
      rw [List.cons_append]
      simp only [List.find?_cons]
      cases hqa : q a
      · exact ih
      · rfl

theorem lookupBy_upsertBy_ne {β : Type} (l : List (String × β)) (k k' : String) (v : β)
    (h : k' ≠ k) :
    lookupBy (upsertBy l k v) k' = lookupBy l k' := by
  unfold lookupBy upsertBy
  rw [find?_upsertRow_of_ne]
  · intro x hx
    have hx1 : x.1 = k := by simpa using hx
    simp [hx1, Ne.symm h]
  · simp [Ne.symm h]

theorem upsert_student_skill_eq (st : Store) (u t k : String) (nh : Bool) (ct : Option String) :
    ∃ s, upsert_student_skill st u t k nh ct = { st with skills := s } :=
  ⟨_, rfl⟩

theorem fold_upsert_skills_eq (l : List String) (u t : String) (nh : Bool)
    (ct : Option String) :
    ∀ st : Store,
      ∃ s, l.foldl (fun a sk =>
          if trimStr sk ≠ "" then upsert_student_skill a u t (trimStr sk) nh ct else a) st
        = { st with skills := s } := by
  induction l with
  | nil => intro st; exact ⟨st.skills, rfl⟩
  | cons a tl ih =>
    intro st
    simp only [List.foldl_cons]
    by_cases ha : trimStr a ≠ ""
    · rw [if_pos ha]
      obtain ⟨s1, h1⟩ := upsert_student_skill_eq st u t (trimStr a) nh ct
      rw [h1]
      obtain ⟨s2, h2⟩ := ih { st with skills := s1 }
      rw [h2]
      exact ⟨s2, rfl⟩
    · rw [if_neg ha]
      exact ih st

theorem update_student_model_eq (st : Store) (u t : String) (l : List String) (nh : Bool)
    (ct : Option String) :
    ∃ s d, update_student_model_from_learning st u t l nh ct
      = { st with skills := s, topic_diff := d } := by
  unfold update_student_model_from_learning
  obtain ⟨s, hs⟩ := fold_upsert_skills_eq (l.take 5) u t nh ct st
  rw [hs]
  exact ⟨s, _, rfl⟩

/-! Projection facts about the store operations (all definitional). -/

theorem logged_interactions (st : Store) (sid m : String) :
    (logged_student_store st sid m).interactions = st.interactions ++ [student_turn st sid m] :=
  rfl

theorem logged_plans (st : Store) (sid m : String) :
    (logged_student_store st sid m).plans = st.plans := rfl

theorem logged_stats (st : Store) (sid m : String) :
    (logged_student_store st sid m).stats = st.stats := rfl

theorem logged_snapshots (st : Store) (sid m : String) :
    (logged_student_store st sid m).snapshots = st.snapshots := rfl

theorem logged_skills (st : Store) (sid m : String) :
    (logged_student_store st sid m).skills = st.skills := rfl

theorem logged_topic_diff (st : Store) (sid m : String) :
    (logged_student_store st sid m).topic_diff = st.topic_diff := rfl

theorem logged_sessions (st : Store) (sid m : String) :
    (logged_student_store st sid m).sessions = st.sessions := rfl

theorem logged_planner_calls (st : Store) (sid m : String) :
    (logged_student_store st sid m).planner_calls = st.planner_calls := rfl

theorem user_exists_logged (st : Store) (sid m u : String) :
    user_exists (logged_student_store st sid m) u = user_exists st u := rfl

theorem get_session_logged (st : Store) (sid m sid' : String) :
    get_session (logged_student_store st sid m) sid' = get_session st sid' := rfl

theorem get_session_plan_logged (st : Store) (sid m sid' : String) :
    get_session_plan (logged_student_store st sid m) sid' = get_session_plan st sid' := rfl

theorem get_topic_mastery_logged (st : Store) (sid m u t : String) :
    get_topic_mastery (logged_student_store st sid m) u t = get_topic_mastery st u t := rfl

theorem resolved_mastery_logged (env : Env) (st : Store) (sid m u t : String) :
    resolved_mastery env (logged_student_store st sid m) u t = resolved_mastery env st u t := rfl

theorem resolved_target_logged (env : Env) (st : Store) (sid m : String) (u : String)
    (sess : Session) :
    resolved_target env (logged_student_store st sid m) u sess = resolved_target env st u sess :=
  rfl

theorem turn_plan_logged (env : Env) (st : Store) (m : String) (u : String) (sess : Session)
    (sid : String) :
    turn_plan env (logged_student_store st sid m) u sess sid = turn_plan env st u sess sid := rfl

/-- Re-ensuring an already ensured plan (same topic) changes nothing. -/
theorem ensure_plan_idem (p : Option Plan) (topic : String) (m m' : ℚ) (t t' : String) :
    ensure_plan (some (ensure_plan p topic m t)) topic m' t' = ensure_plan p topic m t := by
  cases p <;> rfl

/-- The second `ensure_plan` of the normal branch is the identity on the turn's
ensured plan. -/
theorem ensure_turn_plan (env : Env) (st : Store) (u : String) (sess : Session) (sid : String)
    (m : ℚ) (t : String) :
    ensure_plan (some (turn_plan env st u sess sid)) sess.topic m t
      = turn_plan env st u sess sid :=
  ensure_plan_idem (get_session_plan st sid) sess.topic _ m _ t

/-! Lemmas about the retry wrapper. -/

theorem headD_eq_getD_zero (js : List ℚ) : js.headD 0 = js.getD 0 0 := by
  cases js <;> rfl

theorem tail_getD_q (js : List ℚ) (k : Nat) : js.tail.getD k 0 = js.getD (k + 1) 0 := by
  cases js <;> rfl

theorem callWithRetryAux_length_le {α : Type} (mr : Nat) (b M : ℚ) :
    ∀ (outs : List (Except CallErr α)) (js : List ℚ) (a : Nat),
      (callWithRetryAux mr b M a outs js).2.length ≤ mr - a := by
  intro outs
  induction outs with
  | nil => intro js a; simp [callWithRetryAux]
  | cons o rest ih =>
    intro js a
    cases o with
    | ok v => simp [callWithRetryAux]
    | error e =>
      cases e with
      | other m => simp [callWithRetryAux]
      | sdk m =>
        simp only [callWithRetryAux]
        by_cases htr : isTransientMsg m
        · simp only [htr, if_true]
          by_cases hex : a + 1 > mr
          · simp [hex]
          · simp only [hex, if_false, List.length_cons]
            have h2 := ih js.tail (a + 1)
            omega
        · simp [htr]

theorem callWithRetryAux_sleeps_getD {α : Type} (mr : Nat) (b M : ℚ) :
    ∀ (outs : List (Except CallErr α)) (js : List ℚ) (a k : Nat),
      k < (callWithRetryAux mr b M a outs js).2.length →
      (callWithRetryAux mr b M a outs js).2.getD k 0
        = backoffDelay b M (a + k + 1) + js.getD k 0 := by
  intro outs
  induction outs with
  | nil => intro js a k hk; simp [callWithRetryAux] at hk
  | cons o rest ih =>
    intro js a k hk
    cases o with
    | ok v => simp [callWithRetryAux] at hk
    | error e =>
      cases e with
      | other m => simp [callWithRetryAux] at hk
      | sdk m =>
        simp only [callWithRetryAux] at hk ⊢
        by_cases htr : isTransientMsg m
        · simp only [htr, if_true] at hk ⊢
          by_cases hex : a + 1 > mr
          · simp [hex] at hk
          · simp only [hex, if_false] at hk ⊢
            cases k with
            | zero =>
              simp only [List.getD_cons_zero, Nat.add_zero]
              rw [headD_eq_getD_zero]
            | succ k =>
              simp only [List.length_cons, Nat.succ_lt_succ_iff] at hk
              simp only [List.getD_cons_succ]
              rw [ih js.tail (a + 1) k hk, tail_getD_q]
              have hidx : a + 1 + k + 1 = a + (k + 1) + 1 := by omega
              rw [hidx]
        · simp [htr] at hk

theorem callWithRetryAux_cons_transient {α : Type} (mr : Nat) (b M : ℚ) (a : Nat) (m : String)
    (rest : List (Except CallErr α)) (js : List ℚ)
    (htr : isTransientMsg m = true) (hex : ¬ a + 1 > mr) :
    callWithRetryAux mr b M a (Except.error (CallErr.sdk m) :: rest) js =
      ((callWithRetryAux mr b M (a + 1) rest js.tail).1,
       (backoffDelay b M (a + 1) + js.headD 0) ::
         (callWithRetryAux mr b M (a + 1) rest js.tail).2) := by
  conv_lhs => rw [callWithRetryAux]
  simp [htr, hex]

theorem callWithRetryAux_replicate {α : Type} (mr : Nat) (b M : ℚ) (m : String)
    (htr : isTransientMsg m = true) :
    ∀ (n a : Nat) (js : List ℚ), a + n = mr →
      callWithRetryAux (α := α) mr b M a
          (List.replicate (n + 1) (Except.error (CallErr.sdk m))) js =
        (Except.error (CallErr.sdk m),
         (List.range n).map (fun k => backoffDelay b M (a + k + 1) + js.getD k 0)) := by
  intro n
  induction n with
  | zero =>
    intro a js ha
    simp only [List.replicate_succ, List.replicate_zero, callWithRetryAux, htr, if_true]
    have hex : a + 1 > mr := by omega
    simp [hex]
  | succ n ih =>
    intro a js ha
    rw [List.replicate_succ]
    have hex : ¬ a + 1 > mr := by omega
    rw [callWithRetryAux_cons_transient mr b M a m _ js htr hex]
    rw [ih (a + 1) js.tail (by omega)]
    refine Prod.ext rfl ?_
    simp only [List.range_succ_eq_map, List.map_cons, List.map_map]
    rw [headD_eq_getD_zero]
    refine List.cons_eq_cons.mpr ⟨by rw [Nat.add_zero], ?_⟩
    apply List.map_congr_left
    intro k _
    simp only [Function.comp_apply]
    rw [tail_getD_q]
    have hidx : a + 1 + k + 1 = a + (k + 1) + 1 := by omega
    rw [hidx]

/-! Reduction of `handle_student_message` on the main paths. -/

/-- On a processed (non-empty, non-command) input with an existing user and
session, when the dialogue call returns a reply, `handle_student_message` is the
branch dispatch applied to the store that has the student turn logged and the
ensured plan saved. -/
theorem handle_message_ok (env : Env) (st : Store) (u sid msg : String) (fr : Bool)
    (sess : Session) (sos : SocraticReply)
    (hmsg : ¬ (trimStr msg = "" ∧ fr = false))
    (hcmd : startsWithStr (trimStr msg) "/" = false)
    (huser : user_exists st u = true)
    (hsess : get_session st sid = some sess)
    (hsoc : call_socratic_agent env.socratic = Except.ok sos) :
    handle_student_message env st u sid msg fr =
      after_socratic env
        (save_session_plan (logged_student_store st sid (trimStr msg)) sid (turn_plan env st u sess sid))
        u sid sess (resolved_mastery env st u sess.topic) (resolved_target env st u sess)
        (get_next_turn_index st sid) (turn_plan env st u sess sid) (turn_plan env st u sess sid)
        sos fr := by
  unfold handle_student_message
  rw [if_neg hmsg, if_neg (by simp [hcmd])]
  unfold handle_after_checks
  simp only [user_exists_logged, huser, get_session_logged, hsess, hsoc,
    get_session_plan_logged, resolved_mastery_logged, resolved_target_logged]
  rfl

/-- On a processed input with an existing user and session, when the dialogue
capability wrapper raises (a non-SDK exception), `handle_student_message` returns
the degraded dict with the store as of just before the dialogue call. -/
theorem handle_message_raise (env : Env) (st : Store) (u sid msg : String) (fr : Bool)
    (sess : Session) (e : String)
    (hmsg : ¬ (trimStr msg = "" ∧ fr = false))
    (hcmd : startsWithStr (trimStr msg) "/" = false)
    (huser : user_exists st u = true)
    (hsess : get_session st sid = some sess)
    (hsoc : call_socratic_agent env.socratic = Except.error e) :
    handle_student_message env st u sid msg fr =
      (simpleReply "ONGOING" "ASK_QUESTION" "Model error (rate limit). Try again.",
       save_session_plan (logged_student_store st sid (trimStr msg)) sid (turn_plan env st u sess sid)) := by
  unfold handle_student_message
  rw [if_neg hmsg, if_neg (by simp [hcmd])]
  unfold handle_after_checks
  simp only [user_exists_logged, huser, get_session_logged, hsess, hsoc,
    get_session_plan_logged, resolved_mastery_logged, resolved_target_logged]
  rfl

theorem minQ_eq_min (a b : ℚ) : minQ a b = min a b := by
  unfold minQ
  rcases le_total b a with h | h
  · rw [if_pos h, min_eq_right h]
  · rcases eq_or_lt_of_le h with rfl | hlt
    · simp
    · rw [if_neg (not_le.mpr hlt), min_eq_left h]

theorem maxQ_eq_max (a b : ℚ) : maxQ a b = max a b := by
  unfold maxQ
  rcases le_total a b with h | h
  · rw [if_pos h, max_eq_right h]
  · rcases eq_or_lt_of_le h with rfl | hlt
    · simp
    · rw [if_neg (not_le.mpr hlt), max_eq_left h]

theorem maxZ_eq_max (a b : Int) : maxZ a b = max a b := by
  unfold maxZ
  rcases le_total a b with h | h
  · rw [if_pos h, max_eq_right h]
  · rcases eq_or_lt_of_le h with rfl | hlt
    · simp
    · rw [if_neg (not_le.mpr hlt), max_eq_left h]

theorem clampQ_le_hi (x lo hi : ℚ) (h : lo ≤ hi) : clampQ x lo hi ≤ hi := by
  unfold clampQ
  rw [maxQ_eq_max, minQ_eq_min]
  exact max_le h (min_le_left _ _)

theorem clampQ_eq_self (x lo hi : ℚ) (h1 : lo ≤ x) (h2 : x ≤ hi) : clampQ x lo hi = x := by
  unfold clampQ
  rw [maxQ_eq_max, minQ_eq_min, min_eq_right h2, max_eq_right h1]

theorem get_session_stats_upsert (st : Store) (sid : String) (row : StatsRow) :
    get_session_stats (upsert_session_stats st sid row) sid = some row := by
  unfold get_session_stats upsert_session_stats
  exact lookupBy_upsertBy_self st.stats sid row

theorem get_session_plan_save (st : Store) (sid : String) (p : Plan) :
    get_session_plan (save_session_plan st sid p) sid = some p := by
  unfold get_session_plan save_session_plan
  exact lookupBy_upsertBy_self st.plans sid p

theorem get_session_plan_save_ne (st : Store) (sid sid' : String) (p : Plan) (h : sid' ≠ sid) :
    get_session_plan (save_session_plan st sid p) sid' = get_session_plan st sid' := by
  unfold get_session_plan save_session_plan
  exact lookupBy_upsertBy_ne st.plans sid sid' p h

/-- On a normal (no-shift) reply that is not SOLVED, the turn reduces to the
unsolved tail applied to the post-stats store and the step-incremented plan. -/
theorem handle_message_normal_unsolved (env : Env) (st : Store) (u sid msg : String) (fr : Bool)
    (sess : Session) (sos : SocraticReply)
    (hmsg : ¬ (trimStr msg = "" ∧ fr = false))
    (hcmd : startsWithStr (trimStr msg) "/" = false)
    (huser : user_exists st u = true)
    (hsess : get_session st sid = some sess)
    (hsoc : call_socratic_agent env.socratic = Except.ok sos)
    (hts : ¬ (sos.topic_shift = true ∧ sos.new_topic.getD "" ≠ ""))
    (hgs : ¬ (sos.goal_shift = true ∧ sos.new_goal.getD "" ≠ ""))
    (hnd : sos.status ≠ "SOLVED") :
    handle_student_message env st u sid msg fr =
      unsolved_tail env
        (update_session_stats_after_turn
          (save_interaction
            (fresh_id (save_session_plan (logged_student_store st sid (trimStr msg)) sid
              (turn_plan env st u sess sid)) "i").2
            (tutor_turn
              (save_session_plan (logged_student_store st sid (trimStr msg)) sid
                (turn_plan env st u sess sid))
              sid (get_next_turn_index st sid) (turn_plan env st u sess sid) sos))
          sid u sess.topic sos.status (some (turn_plan env st u sess sid).hint_policy)
          ((turn_plan env st u sess sid).steps_used.getD 0) none)
        sid sess
        { turn_plan env st u sess sid with
            steps_used := some ((turn_plan env st u sess sid).steps_used.getD 0 + 1) }
        sos fr := by
  rw [handle_message_ok env st u sid msg fr sess sos hmsg hcmd huser hsess hsoc]
  unfold after_socratic
  rw [if_neg hts, if_neg hgs]
  unfold normal_branch
  have hbeq : (sos.status == "SOLVED") = false := by simp [hnd]
  simp only [hbeq, Bool.false_eq_true, if_false, Bool.not_false, if_true, ensure_turn_plan]

/-- On a normal (no-shift) reply that is SOLVED, the turn reduces to the solved
tail, with the mastery delta computed at solve time. -/
theorem handle_message_normal_solved (env : Env) (st : Store) (u sid msg : String) (fr : Bool)
    (sess : Session) (sos : SocraticReply)
    (hmsg : ¬ (trimStr msg = "" ∧ fr = false))
    (hcmd : startsWithStr (trimStr msg) "/" = false)
    (huser : user_exists st u = true)
    (hsess : get_session st sid = some sess)
    (hsoc : call_socratic_agent env.socratic = Except.ok sos)
    (hts : ¬ (sos.topic_shift = true ∧ sos.new_topic.getD "" ≠ ""))
    (hgs : ¬ (sos.goal_shift = true ∧ sos.new_goal.getD "" ≠ ""))
    (hd : sos.status = "SOLVED") :
    handle_student_message env st u sid msg fr =
      solved_tail env
        (update_session_stats_after_turn
          (save_interaction
            (fresh_id (save_session_plan (logged_student_store st sid (trimStr msg)) sid
              (turn_plan env st u sess sid)) "i").2
            (tutor_turn
              (save_session_plan (logged_student_store st sid (trimStr msg)) sid
                (turn_plan env st u sess sid))
              sid (get_next_turn_index st sid) (turn_plan env st u sess sid) sos))
          sid u sess.topic sos.status (some (turn_plan env st u sess sid).hint_policy)
          ((turn_plan env st u sess sid).steps_used.getD 0)
          (some (compute_delta (get_topic_mastery st u sess.topic))))
        u sid sess (turn_plan env st u sess sid) (turn_plan env st u sess sid) sos
        (some (compute_delta (get_topic_mastery st u sess.topic))) := by
  rw [handle_message_ok env st u sid msg fr sess sos hmsg hcmd huser hsess hsoc]
  unfold after_socratic
  rw [if_neg hts, if_neg hgs]
  unfold normal_branch
  have hbeq : (sos.status == "SOLVED") = true := by simp [hd]
  simp only [hbeq, if_true, Bool.not_true, Bool.false_eq_true, if_false, ensure_turn_plan]
  rfl

theorem unsolved_tail_frame (env : Env) (st : Store) (sid : String) (sess : Session)
    (pl : Plan) (sos : SocraticReply) (fr : Bool) :
    (unsolved_tail env st sid sess pl sos fr).2.interactions = st.interactions ∧
    (unsolved_tail env st sid sess pl sos fr).2.stats = st.stats ∧
    (unsolved_tail env st sid sess pl sos fr).2.snapshots = st.snapshots ∧
    (unsolved_tail env st sid sess pl sos fr).2.skills = st.skills ∧
    (unsolved_tail env st sid sess pl sos fr).2.topic_diff = st.topic_diff ∧
    (unsolved_tail env st sid sess pl sos fr).2.sessions = st.sessions := by
  simp only [unsolved_tail]
  split
  · split <;> exact ⟨rfl, rfl, rfl, rfl, rfl, rfl⟩
  · exact ⟨rfl, rfl, rfl, rfl, rfl, rfl⟩

theorem statsD_upsert (st : Store) (sid u t : String) (row : StatsRow) :
    statsD (upsert_session_stats st sid row) sid u t = row := by
  unfold statsD
  rw [get_session_stats_upsert]
  rfl

theorem statsD_congr (st st' : Store) (sid u t : String) (h : st.stats = st'.stats) :
    statsD st sid u t = statsD st' sid u t := by
  unfold statsD get_session_stats
  rw [h]

theorem stats_update_attempts (st : Store) (sid u t status : String) (hp : Option String)
    (steps : Int) (md : Option ℚ) :
    (statsD (update_session_stats_after_turn st sid u t status hp steps md) sid u t).attempts
      = (statsD st sid u t).attempts + 1 := by
  unfold update_session_stats_after_turn
  rw [statsD_upsert]

/-- `update_student_model_from_learning` only touches the `skills` and
`topic_diff` tables. -/
theorem update_student_model_frame (st : Store) (u t : String) (l : List String) (nh : Bool)
    (ct : Option String) :
    (update_student_model_from_learning st u t l nh ct).snapshots = st.snapshots ∧
    (update_student_model_from_learning st u t l nh ct).plans = st.plans ∧
    (update_student_model_from_learning st u t l nh ct).interactions = st.interactions ∧
    (update_student_model_from_learning st u t l nh ct).planner_calls = st.planner_calls ∧
    (update_student_model_from_learning st u t l nh ct).sessions = st.sessions ∧
    (update_student_model_from_learning st u t l nh ct).stats = st.stats := by
  obtain ⟨s, d, h⟩ := update_student_model_eq st u t l nh ct
  rw [h]
  exact ⟨rfl, rfl, rfl, rfl, rfl, rfl⟩

/-- The mastery increment is at least 0.05, in particular nonnegative. -/
theorem compute_delta_nonneg (c : ℚ) : 0 ≤ compute_delta c := by
  unfold compute_delta
  rw [maxQ_eq_max]
  have h : (0.05 : ℚ) ≤ max 0.05 (0.2 * (1 - c)) := le_max_left _ _
  linarith

theorem get_topic_mastery_congr (st' st : Store) (u t : String)
    (h : st'.snapshots = st.snapshots) :
    get_topic_mastery st' u t = get_topic_mastery st u t := by
  unfold get_topic_mastery
  rw [h]

/-- Appending one snapshot with a nonnegative delta cannot decrease the capped
mastery sum. -/
theorem get_topic_mastery_append_mono (st st' : Store) (u t : String) (snap : Snapshot)
    (h : st'.snapshots = st.snapshots ++ [snap]) (hd : 0 ≤ snap.mastery_delta) :
    get_topic_mastery st u t ≤ get_topic_mastery st' u t := by
  unfold get_topic_mastery
  rw [h, minQ_eq_min, minQ_eq_min, List.filter_append, List.map_append, List.sum_append]
  refine min_le_min (le_refl 1) ?_
  have hge : 0 ≤ ((List.filter (fun s => s.user_id == u && s.topic == t) [snap]).map
      (fun s => s.mastery_delta)).sum := by
    cases hc : (snap.user_id == u && snap.topic == t)
    · simp [List.filter_cons, hc]
    · simp [List.filter_cons, hc, hd]
  linarith

/-- Characterization of the SOLVED tail when the skill-extraction call returns:
the tutor's reply is returned, one snapshot with the supplied solve-time delta
is appended, and the persisted next plan has its step counter at 0. -/
theorem solved_tail_ok (env : Env) (st : Store) (u sid : String) (sess : Session)
    (ap pl : Plan) (sos : SocraticReply) (d : ℚ) (L : LearningExtract)
    (hL : env.learning = Except.ok L) :
    (solved_tail env st u sid sess ap pl sos (some d)).1 = HandleResult.reply sos ∧
    (solved_tail env st u sid sess ap pl sos (some d)).2.snapshots
        = st.snapshots ++
          [{ snapshot_id := (fresh_id st "p").1
             user_id := u
             topic := sess.topic
             mastery_delta := d
             reason := L.reason
             skills := L.skills }] ∧
    ∃ p', get_session_plan (solved_tail env st u sid sess ap pl sos (some d)).2 sid = some p'
        ∧ p'.steps_used = some 0 := by
  simp only [solved_tail, hL, fresh_id, Option.getD_some]
  obtain ⟨sk, td, heq⟩ := update_student_model_eq
    (save_progress { st with next_id := st.next_id + 1 }
      { snapshot_id := "p" ++ "_" ++ toString st.next_id
        user_id := u
        topic := sess.topic
        mastery_delta := d
        reason := L.reason
        skills := L.skills })
    u sess.topic L.skills false none
  rw [heq]
  refine ⟨by trivial, ?_, ?_⟩
  · split <;> rfl
  · refine ⟨_, get_session_plan_save _ _ _, ?_⟩
    split <;> rfl

/-- Planner-call trace and persisted plan of the SOLVED tail: a corrective
re-plan (site `"post_solve_retry"`, reason `"avoid_repeat_goal"`) is requested
exactly when the first candidate's goal repeats the active plan's goal, and only
once; its result (or, on failure, the repeated candidate) is kept. -/
theorem solved_tail_planner (env : Env) (st : Store) (u sid : String) (sess : Session)
    (ap pl : Plan) (sos : SocraticReply) (d : ℚ) (L : LearningExtract)
    (hL : env.learning = Except.ok L) :
    (((first_next_plan env sess.topic pl).goal == ap.goal) = true →
      (solved_tail env st u sid sess ap pl sos (some d)).2.planner_calls
          = st.planner_calls
            ++ [("post_solve", L.reason), ("post_solve_retry", "avoid_repeat_goal")] ∧
      (∀ q, env.planner "post_solve_retry" = Except.ok q →
        get_session_plan (solved_tail env st u sid sess ap pl sos (some d)).2 sid
            = some (normalize_next_plan sess.topic q.toPlan)) ∧
      (∀ e, env.planner "post_solve_retry" = Except.error e →
        get_session_plan (solved_tail env st u sid sess ap pl sos (some d)).2 sid
            = some (normalize_next_plan sess.topic (first_next_plan env sess.topic pl)))) ∧
    (((first_next_plan env sess.topic pl).goal == ap.goal) = false →
      (solved_tail env st u sid sess ap pl sos (some d)).2.planner_calls
          = st.planner_calls ++ [("post_solve", L.reason)] ∧
      get_session_plan (solved_tail env st u sid sess ap pl sos (some d)).2 sid
          = some (first_next_plan env sess.topic pl)) := by
  simp only [solved_tail, hL, fresh_id, Option.getD_some]
  obtain ⟨sk, td, heq⟩ := update_student_model_eq
    (save_progress { st with next_id := st.next_id + 1 }
      { snapshot_id := "p" ++ "_" ++ toString st.next_id
        user_id := u
        topic := sess.topic
        mastery_delta := d
        reason := L.reason
        skills := L.skills })
    u sess.topic L.skills false none
  rw [heq]
  constructor
  · intro hcol
    rw [if_pos hcol]
    refine ⟨?_, ?_, ?_⟩
    · exact List.append_assoc st.planner_calls [("post_solve", L.reason)]
        [("post_solve_retry", "avoid_repeat_goal")]
    · intro q hq
      rw [hq]
      exact get_session_plan_save _ _ _
    · intro e he
      rw [he]
      exact get_session_plan_save _ _ _
  · intro hcol
    rw [if_neg (by rw [hcol]; exact Bool.false_ne_true)]
    exact ⟨rfl, get_session_plan_save _ _ _⟩

/-- On a processed input whose reply announces a topic shift with a non-empty
new topic, the turn reduces to the topic-shift branch applied to the store as of
just before the dialogue call. -/
theorem handle_message_topic_shift (env : Env) (st : Store) (u sid msg : String) (fr : Bool)
    (sess : Session) (sos : SocraticReply)
    (hmsg : ¬ (trimStr msg = "" ∧ fr = false))
    (hcmd : startsWithStr (trimStr msg) "/" = false)
    (huser : user_exists st u = true)
    (hsess : get_session st sid = some sess)
    (hsoc : call_socratic_agent env.socratic = Except.ok sos)
    (hts : sos.topic_shift = true ∧ sos.new_topic.getD "" ≠ "") :
    handle_student_message env st u sid msg fr =
      topic_shift_branch env
        (save_session_plan (logged_student_store st sid (trimStr msg)) sid
          (turn_plan env st u sess sid))
        u sid (get_next_turn_index st sid) (turn_plan env st u sess sid) sos := by
  rw [handle_message_ok env st u sid msg fr sess sos hmsg hcmd huser hsess hsoc]
  unfold after_socratic
  rw [if_pos hts]

/-- Characterization of the topic-shift branch on a store whose next generated
session id is fresh: the tutor turn goes to the current session, a new session
and a bootstrapped plan (counter 0) are created under the fresh id, the dict
carries that id, and the current session's plan entry is untouched. -/
theorem topic_shift_branch_char (env : Env) (st : Store) (u sid : String) (ti : Nat)
    (ap : Plan) (sos : SocraticReply)
    (hfs : st.sessions.any
        (fun t => t.session_id == "s" ++ "_" ++ toString (st.next_id + 1)) = false)
    (hne : sid ≠ "s" ++ "_" ++ toString (st.next_id + 1)) :
    (topic_shift_branch env st u sid ti ap sos).1
        = HandleResult.dict { status := sos.status
                              action := sos.expected_student_action
                              tutor_message := sos.tutor_message
                              topic_shift := true
                              new_topic := some (trimStr (sos.new_topic.getD ""))
                              new_session_id := some ("s" ++ "_" ++ toString (st.next_id + 1)) } ∧
    (topic_shift_branch env st u sid ti ap sos).2.interactions
        = st.interactions
          ++ [{ interaction_id := "i" ++ "_" ++ toString st.next_id
                session_id := sid
                turn_index := ti + 1
                speaker := "tutor"
                agent_role := "socratic_tutor"
                content := sos.tutor_message ++ "\n\n✅ New session created for: "
                  ++ trimStr (sos.new_topic.getD "")
                status := some sos.status
                hint_policy := some ap.hint_policy }] ∧
    (topic_shift_branch env st u sid ti ap sos).2.sessions
        = st.sessions
          ++ [{ session_id := "s" ++ "_" ++ toString (st.next_id + 1)
                user_id := u
                topic := trimStr (sos.new_topic.getD "")
                difficulty_mode := "auto"
                manual_target_difficulty := "medium" }] ∧
    get_session (topic_shift_branch env st u sid ti ap sos).2
        ("s" ++ "_" ++ toString (st.next_id + 1))
        = some { session_id := "s" ++ "_" ++ toString (st.next_id + 1)
                 user_id := u
                 topic := trimStr (sos.new_topic.getD "")
                 difficulty_mode := "auto"
                 manual_target_difficulty := "medium" } ∧
    (∀ q, env.planner "topic_shift" = Except.ok q →
      get_session_plan (topic_shift_branch env st u sid ti ap sos).2
          ("s" ++ "_" ++ toString (st.next_id + 1))
        = some (normalize_next_plan (trimStr (sos.new_topic.getD "")) q.toPlan)) ∧
    (∀ e, env.planner "topic_shift" = Except.error e →
      get_session_plan (topic_shift_branch env st u sid ti ap sos).2
          ("s" ++ "_" ++ toString (st.next_id + 1))
        = some (normalize_next_plan (trimStr (sos.new_topic.getD ""))
            (ensure_plan none (trimStr (sos.new_topic.getD ""))
              (resolved_mastery env st u (trimStr (sos.new_topic.getD "")))
              (target_from_mastery
                (resolved_mastery env st u (trimStr (sos.new_topic.getD ""))))))) ∧
    get_session_plan (topic_shift_branch env st u sid ti ap sos).2 sid
        = get_session_plan st sid ∧
    (∀ p', get_session_plan (topic_shift_branch env st u sid ti ap sos).2
        ("s" ++ "_" ++ toString (st.next_id + 1)) = some p' → p'.steps_used = some 0) := by
  have hnone : st.sessions.find?
      (fun t => t.session_id == "s" ++ "_" ++ toString (st.next_id + 1)) = none := by
    rw [List.find?_eq_none]
    intro x hx hpx
    exact Bool.noConfusion (hfs.symm.trans (List.any_eq_true.mpr ⟨x, hx, hpx⟩))
  simp only [topic_shift_branch, fresh_id, save_interaction, save_session, hfs,
    Bool.false_eq_true, if_false]
  refine ⟨by trivial, by trivial, by trivial, ?_, ?_, ?_, ?_, ?_⟩
  · exact find?_append_last _ st.sessions _ (by simp) hnone
  · intro q hq
    rw [hq]
    exact get_session_plan_save _ _ _
  · intro e he
    rw [he]
    exact get_session_plan_save _ _ _
  · exact lookupBy_upsertBy_ne _ _ _ _ hne
  · intro p' hp'
    rw [get_session_plan_save] at hp'
    cases hp'
    rfl

/-- `COALESCE(MAX, -1) + 1` over the contiguous indices `0..n-1` is `n`. -/
theorem foldl_max_range : ∀ n : Nat, (List.range n).foldl (fun a b => max a (b + 1)) 0 = n := by
  intro n
  induction n with
  | zero => rfl
  | succ k ih =>
    rw [List.range_succ, List.foldl_append, ih]
    simp only [List.foldl_cons, List.foldl_nil]
    exact Nat.max_eq_right (Nat.le_succ k)

/-- On a session with contiguous indices, the next turn index is the row count. -/
theorem get_next_turn_index_eq (st : Store) (sid : String) (h : TurnIndexOk st sid) :
    get_next_turn_index st sid = (session_turn_indices st sid).length := by
  show (session_turn_indices st sid).foldl (fun a b => max a (b + 1)) 0 = _
  conv_lhs => rw [h]
  rw [foldl_max_range]

/-- Contiguity of a session's turn indices is preserved by appending rows whose
indices for that session continue the range by zero, one or two entries. -/
theorem turn_ok_append (sid : String) (st st' : Store) (l : List Interaction)
    (h : st'.interactions = st.interactions ++ l)
    (hok : TurnIndexOk st sid)
    (hc : (l.filter (fun i => i.session_id == sid)).map (fun i => i.turn_index) = []
      ∨ (l.filter (fun i => i.session_id == sid)).map (fun i => i.turn_index)
          = [(session_turn_indices st sid).length]
      ∨ (l.filter (fun i => i.session_id == sid)).map (fun i => i.turn_index)
          = [(session_turn_indices st sid).length,
             (session_turn_indices st sid).length + 1]) :
    TurnIndexOk st' sid := by
  have hst : session_turn_indices st' sid
      = session_turn_indices st sid
        ++ (l.filter (fun i => i.session_id == sid)).map (fun i => i.turn_index) := by
    unfold session_turn_indices
    rw [h, List.filter_append, List.map_append]
  unfold TurnIndexOk at hok ⊢
  rcases hc with hc | hc | hc <;> rw [hst, hc]
  · simp only [List.append_nil]
    exact hok
  · conv_lhs => rw [hok]
    simp only [List.length_range]
    rw [← List.range_succ]
    congr 1
    rw [List.length_append]
    rfl
  · conv_lhs => rw [hok]
    simp only [List.length_range]
    rw [show List.range ((session_turn_indices st sid).length)
          ++ [(session_turn_indices st sid).length, (session_turn_indices st sid).length + 1]
        = List.range ((session_turn_indices st sid).length + 1 + 1) from by
      rw [List.range_succ, List.range_succ, List.append_assoc]
      rfl]
    congr 1
    rw [List.length_append]
    rfl

/-- A turn block for session `sid` whose indices are the next one (or next two)
preserves contiguity for every session. -/
theorem turn_ok_of_block (st st' : Store) (sid : String) (l : List Interaction)
    (h : st'.interactions = st.interactions ++ l)
    (hsid : ∀ i ∈ l, i.session_id = sid)
    (hshape : l.map (fun i => i.turn_index) = [get_next_turn_index st sid]
      ∨ l.map (fun i => i.turn_index)
          = [get_next_turn_index st sid, get_next_turn_index st sid + 1]) :
    ∀ sid', TurnIndexOk st sid' → TurnIndexOk st' sid' := by
  intro sid' hok
  by_cases hss : sid' = sid
  · subst hss
    have hfl : l.filter (fun i => i.session_id == sid') = l := by
      rw [List.filter_eq_self]
      intro i hi
      rw [hsid i hi]
      exact beq_self_eq_true sid'
    have hn := get_next_turn_index_eq st sid' hok
    refine turn_ok_append sid' st st' l h hok ?_
    rw [hfl]
    rcases hshape with hs | hs
    · exact Or.inr (Or.inl (by rw [hs, hn]))
    · exact Or.inr (Or.inr (by rw [hs, hn]))
  · refine turn_ok_append sid' st st' l h hok (Or.inl ?_)
    have hfl : l.filter (fun i => i.session_id == sid') = [] := by
      rw [List.filter_eq_nil_iff]
      intro i hi
      rw [hsid i hi]
      exact fun hb => hss (eq_of_beq hb).symm
    rw [hfl]
    rfl

/-- The SOLVED tail writes no interaction row. -/
theorem solved_tail_interactions (env : Env) (st : Store) (u sid : String) (sess : Session)
    (ap pl : Plan) (sos : SocraticReply) (d : Option ℚ) :
    (solved_tail env st u sid sess ap pl sos d).2.interactions = st.interactions := by
  cases hL : env.learning with
  | error e =>
    simp only [solved_tail, hL]
    rfl
  | ok L =>
    simp only [solved_tail, hL, fresh_id]
    obtain ⟨sk, td, heq⟩ := update_student_model_eq
      (save_progress { st with next_id := st.next_id + 1 }
        { snapshot_id := "p" ++ "_" ++ toString st.next_id
          user_id := u
          topic := sess.topic
          mastery_delta := d.getD (compute_delta (get_topic_mastery st u sess.topic))
          reason := L.reason
          skills := L.skills })
      u sess.topic L.skills false none
    rw [heq]
    split <;> rfl

/-- The topic-shift branch appends exactly one tutor row, in the current
session, at the following index. -/
theorem topic_shift_interactions_ex (env : Env) (st : Store) (u sid : String) (ti : Nat)
    (ap : Plan) (sos : SocraticReply) :
    ∃ tut : Interaction,
      (topic_shift_branch env st u sid ti ap sos).2.interactions = st.interactions ++ [tut] ∧
      tut.session_id = sid ∧ tut.speaker = "tutor" ∧ tut.turn_index = ti + 1 :=
  ⟨_, rfl, rfl, rfl, rfl⟩

/-- The goal-shift branch appends exactly one tutor row, at the following index. -/
theorem goal_shift_interactions_ex (st : Store) (sid : String) (sess : Session) (m : ℚ)
    (t : String) (ti : Nat) (sos : SocraticReply) :
    ∃ tut : Interaction,
      (goal_shift_branch st sid sess m t ti sos).2.interactions = st.interactions ++ [tut] ∧
      tut.session_id = sid ∧ tut.speaker = "tutor" ∧ tut.turn_index = ti + 1 :=
  ⟨_, rfl, rfl, rfl, rfl⟩

/-- The normal branch appends exactly one tutor row, at the following index. -/
theorem normal_branch_interactions (env : Env) (st : Store) (u sid : String) (sess : Session)
    (m : ℚ) (t : String) (ti : Nat) (ap pl : Plan) (sos : SocraticReply) (fr : Bool) :
    ∃ tut : Interaction,
      (normal_branch env st u sid sess m t ti ap pl sos fr).2.interactions
          = st.interactions ++ [tut] ∧
      tut.session_id = sid ∧ tut.speaker = "tutor" ∧ tut.turn_index = ti + 1 := by
  refine ⟨tutor_turn st sid ti ap sos, ?_, rfl, rfl, rfl⟩
  simp only [normal_branch]
  by_cases hd1 : (sos.status == "SOLVED") = true
  · rw [if_pos hd1, if_pos hd1, if_neg (by rw [hd1]; decide)]
    exact solved_tail_interactions _ _ _ _ _ _ _ _ _
  · rw [Bool.not_eq_true] at hd1
    rw [if_neg (by rw [hd1]; decide), if_neg (by rw [hd1]; decide),
      if_pos (by rw [hd1]; decide)]
    exact (unsolved_tail_frame _ _ _ _ _ _ _).1

/-- On a processed input whose reply announces a goal shift (and no topic
shift), the turn reduces to the goal-shift branch. -/
theorem handle_message_goal_shift (env : Env) (st : Store) (u sid msg : String) (fr : Bool)
    (sess : Session) (sos : SocraticReply)
    (hmsg : ¬ (trimStr msg = "" ∧ fr = false))
    (hcmd : startsWithStr (trimStr msg) "/" = false)
    (huser : user_exists st u = true)
    (hsess : get_session st sid = some sess)
    (hsoc : call_socratic_agent env.socratic = Except.ok sos)
    (hts : ¬ (sos.topic_shift = true ∧ sos.new_topic.getD "" ≠ ""))
    (hgs : sos.goal_shift = true ∧ sos.new_goal.getD "" ≠ "") :
    handle_student_message env st u sid msg fr =
      goal_shift_branch
        (save_session_plan (logged_student_store st sid (trimStr msg)) sid
          (turn_plan env st u sess sid))
        sid sess (resolved_mastery env st u sess.topic) (resolved_target env st u sess)
        (get_next_turn_index st sid) sos := by
  rw [handle_message_ok env st u sid msg fr sess sos hmsg hcmd huser hsess hsoc]
  unfold after_socratic
  rw [if_neg hts, if_pos hgs]

/-- On a processed input with a plain (no-shift) reply, the turn reduces to the
normal branch. -/
theorem handle_message_normal (env : Env) (st : Store) (u sid msg : String) (fr : Bool)
    (sess : Session) (sos : SocraticReply)
    (hmsg : ¬ (trimStr msg = "" ∧ fr = false))
    (hcmd : startsWithStr (trimStr msg) "/" = false)
    (huser : user_exists st u = true)
    (hsess : get_session st sid = some sess)
    (hsoc : call_socratic_agent env.socratic = Except.ok sos)
    (hts : ¬ (sos.topic_shift = true ∧ sos.new_topic.getD "" ≠ ""))
    (hgs : ¬ (sos.goal_shift = true ∧ sos.new_goal.getD "" ≠ "")) :
    handle_student_message env st u sid msg fr =
      normal_branch env
        (save_session_plan (logged_student_store st sid (trimStr msg)) sid
          (turn_plan env st u sess sid))
        u sid sess (resolved_mastery env st u sess.topic) (resolved_target env st u sess)
        (get_next_turn_index st sid) (turn_plan env st u sess sid)
        (turn_plan env st u sess sid) sos fr := by
  rw [handle_message_ok env st u sid msg fr sess sos hmsg hcmd huser hsess hsoc]
  unfold after_socratic
  rw [if_neg hts, if_neg hgs]

/-- Packaging of a processed turn's interaction block: student row at the next
index followed by one tutor row at the following index, contiguity preserved. -/
theorem two_row_block (st st' : Store) (sid m : String) (tut : Interaction)
    (hti : st'.interactions = st.interactions ++ [student_turn st sid m] ++ [tut])
    (hs1 : tut.session_id = sid) (hs2 : tut.speaker = "tutor")
    (hs3 : tut.turn_index = get_next_turn_index st sid + 1) :
    ∃ l : List Interaction,
      st'.interactions = st.interactions ++ l ∧
      (∀ i ∈ l, i.session_id = sid) ∧
      (l.map (fun i => (i.speaker, i.turn_index))
          = [("student", get_next_turn_index st sid)] ∨
        l.map (fun i => (i.speaker, i.turn_index))
          = [("student", get_next_turn_index st sid),
             ("tutor", get_next_turn_index st sid + 1)]) ∧
      (∀ sid', TurnIndexOk st sid' → TurnIndexOk st' sid') := by
  have hl2 : st'.interactions = st.interactions ++ [student_turn st sid m, tut] := by
    rw [hti]
    exact List.append_assoc st.interactions [student_turn st sid m] [tut]
  have hsid2 : ∀ i ∈ [student_turn st sid m, tut], i.session_id = sid := by
    intro i hi
    rcases List.mem_cons.mp hi with rfl | hi2
    · rfl
    · rw [List.mem_singleton] at hi2
      subst hi2
      exact hs1
  refine ⟨_, hl2, hsid2, Or.inr ?_, turn_ok_of_block st st' sid _ hl2 hsid2 (Or.inr ?_)⟩
  · rw [List.map_cons, List.map_cons, List.map_nil, hs2, hs3]
    rfl
  · rw [List.map_cons, List.map_cons, List.map_nil, hs3]
    rfl

/-! ## Claim theorems -/

/-- C7: in `call_with_retry`, a failure is retried iff it is classified as
transient-capacity, and at most `max_retries` times; the sleep before retry `k`
(1-based) is `min(max_delay, base_delay * 2^(k-1))` plus the drawn jitter, which
is at most 30 percent of that delay; a non-transient `SDKError` and any non-SDK
exception propagate immediately with no sleep, and a transient failure that
exhausts `max_retries` retries propagates the original exception. -/
theorem c7_retry_policy {α : Type} (mr : Nat) (b M : ℚ)
    (outs : List (Except CallErr α)) (js : List ℚ)
    (hjs : ∀ k, 0 ≤ js.getD k 0 ∧ js.getD k 0 ≤ 3/10 * backoffDelay b M (k + 1)) :
    (call_with_retry mr b M outs js).2.length ≤ mr ∧
    (∀ k, k < (call_with_retry mr b M outs js).2.length →
      (call_with_retry mr b M outs js).2.getD k 0
          = backoffDelay b M (k + 1) + js.getD k 0 ∧
        0 ≤ js.getD k 0 ∧ js.getD k 0 ≤ 3/10 * backoffDelay b M (k + 1)) ∧
    (∀ (m : String) (rest : List (Except CallErr α)), isTransientMsg m = false →
      call_with_retry mr b M (Except.error (CallErr.sdk m) :: rest) js
        = (Except.error (CallErr.sdk m), [])) ∧
    (∀ (m : String) (rest : List (Except CallErr α)),
      call_with_retry mr b M (Except.error (CallErr.other m) :: rest) js
        = (Except.error (CallErr.other m), [])) ∧
    (∀ m : String, isTransientMsg m = true →
      call_with_retry mr b M
          (List.replicate (mr + 1) (Except.error (CallErr.sdk m) : Except CallErr α)) js
        = (Except.error (CallErr.sdk m),
           (List.range mr).map (fun k => backoffDelay b M (k + 1) + js.getD k 0))) := by
  refine ⟨?_, ?_, ?_, ?_, ?_⟩
  · simpa using callWithRetryAux_length_le mr b M outs js 0
  · intro k hk
    refine ⟨?_, hjs k⟩
    have h := callWithRetryAux_sleeps_getD mr b M outs js 0 k hk
    simpa using h
  · intro m rest hm
    unfold call_with_retry
    conv_lhs => rw [callWithRetryAux]
    simp [hm]
  · intro m rest
    unfold call_with_retry
    conv_lhs => rw [callWithRetryAux]
  · intro m hm
    have h := callWithRetryAux_replicate (α := α) mr b M m hm mr 0 js (by omega)
    unfold call_with_retry
    simpa using h

/-- Witness for C7: two transient failures then a third, with `max_retries = 2`,
base delay 1 and cap 8, zero jitter: both retries sleep the exact exponential
backoff and the original error propagates. -/
theorem c7_retry_policy_witness :
    call_with_retry 2 1 8
        (List.replicate 3 (Except.error (CallErr.sdk "429") : Except CallErr Nat)) []
      = (Except.error (CallErr.sdk "429"), [1, 2]) := by
  have hjs : ∀ k, 0 ≤ ([] : List ℚ).getD k 0 ∧
      ([] : List ℚ).getD k 0 ≤ 3/10 * backoffDelay 1 8 (k + 1) := by
    intro k
    constructor
    · simp [List.getD]
    · have h0 : (0:ℚ) ≤ backoffDelay 1 8 (k + 1) := by
        unfold backoffDelay minQ
        split_ifs
        · positivity
        · norm_num
      simp [List.getD]
      linarith
  have h := (c7_retry_policy 2 1 8
    (List.replicate 3 (Except.error (CallErr.sdk "429") : Except CallErr Nat)) [] hjs).2.2.2.2
      "429" (by decide)
  rw [h]
  refine Prod.ext rfl ?_
  norm_num [List.range_succ, backoffDelay, minQ, List.getD]

/-- C10: an `SDKError` that survives the retry wrapper (non-transient, or retries
exhausted) is never propagated by `call_socratic_agent`: it returns a
`SocraticReply` with status ONGOING, expected action ASK_QUESTION, the fixed
apology message, and no topic or goal shift — indistinguishable in type and shape
from a parsed model reply. -/
theorem c10_sdk_error_degraded (m : String) :
    call_socratic_agent (Except.error (CallErr.sdk m)) = Except.ok socratic_error_reply ∧
    socratic_error_reply.status = "ONGOING" ∧
    socratic_error_reply.expected_student_action = "ASK_QUESTION" ∧
    socratic_error_reply.tutor_message
      = "I had a technical issue generating a reply 😅 try again in a moment." ∧
    socratic_error_reply.topic_shift = false ∧
    socratic_error_reply.new_topic = none ∧
    socratic_error_reply.goal_shift = false ∧
    socratic_error_reply.new_goal = none :=
  ⟨rfl, rfl, rfl, rfl, rfl, rfl, rfl, rfl⟩

/-- C6: every stats-recording call increments `attempts` by one; `hint_count`
increments iff `hint_policy` equals `"high"` (among the documented labels); on a
SOLVED outcome `solved_count` increments and the running average is updated by the
incremental-mean formula with `steps_to_solve = max(1, steps_used_before_reply+1)`
(the first solve sets the average to that value); `mastery_delta` is stored
verbatim when supplied and otherwise retained. -/
theorem c6_stats_recording (st : Store) (sid uid topic tutor_status : String)
    (hint_policy : Option String) (steps : Int) (md : Option ℚ)
    (hhp : hint_policy = none ∨ hint_policy = some "low" ∨ hint_policy = some "medium" ∨
           hint_policy = some "high")
    (hlink : (statsD st sid uid topic).avg_steps_to_solve = none ↔
             (statsD st sid uid topic).solved_count = 0) :
    (statsD (update_session_stats_after_turn st sid uid topic tutor_status hint_policy steps md)
        sid uid topic).attempts = (statsD st sid uid topic).attempts + 1 ∧
    ((statsD (update_session_stats_after_turn st sid uid topic tutor_status hint_policy steps md)
        sid uid topic).hint_count
      = (statsD st sid uid topic).hint_count + (if hint_policy = some "high" then 1 else 0)) ∧
    ((statsD (update_session_stats_after_turn st sid uid topic tutor_status hint_policy steps md)
        sid uid topic).hint_count = (statsD st sid uid topic).hint_count + 1 ↔
      hint_policy = some "high") ∧
    (tutor_status = "SOLVED" →
      (statsD (update_session_stats_after_turn st sid uid topic tutor_status hint_policy steps md)
          sid uid topic).solved_count = (statsD st sid uid topic).solved_count + 1 ∧
      (statsD (update_session_stats_after_turn st sid uid topic tutor_status hint_policy steps md)
          sid uid topic).avg_steps_to_solve
        = some ((((statsD st sid uid topic).avg_steps_to_solve.getD 0)
              * (((statsD st sid uid topic).solved_count : ℚ))
              + ((maxZ 1 (steps + 1)) : ℚ))
            / (((statsD st sid uid topic).solved_count + 1 : Int) : ℚ)) ∧
      ((statsD st sid uid topic).solved_count = 0 →
        (statsD (update_session_stats_after_turn st sid uid topic tutor_status hint_policy steps
            md) sid uid topic).avg_steps_to_solve = some ((maxZ 1 (steps + 1)) : ℚ))) ∧
    (tutor_status ≠ "SOLVED" →
      (statsD (update_session_stats_after_turn st sid uid topic tutor_status hint_policy steps md)
          sid uid topic).solved_count = (statsD st sid uid topic).solved_count ∧
      (statsD (update_session_stats_after_turn st sid uid topic tutor_status hint_policy steps md)
          sid uid topic).avg_steps_to_solve = (statsD st sid uid topic).avg_steps_to_solve) ∧
    (∀ d : ℚ, md = some d →
      (statsD (update_session_stats_after_turn st sid uid topic tutor_status hint_policy steps md)
          sid uid topic).mastery_delta = some d) ∧
    (md = none →
      (statsD (update_session_stats_after_turn st sid uid topic tutor_status hint_policy steps md)
          sid uid topic).mastery_delta = (statsD st sid uid topic).mastery_delta) := by
  have hrow : ∀ row : StatsRow,
      statsD (upsert_session_stats st sid row) sid uid topic = row := by
    intro row
    unfold statsD
    rw [get_session_stats_upsert]
    rfl
  unfold update_session_stats_after_turn
  rw [hrow]
  have hh : hint_is_high hint_policy = decide (hint_policy = some "high") := by
    rcases hhp with h | h | h | h <;> subst h <;> rfl
  refine ⟨rfl, ?_, ?_, ?_, ?_, ?_, ?_⟩
  · show (if hint_is_high hint_policy = true then _ + 1 else _) = _
    rw [hh]
    by_cases hhigh : hint_policy = some "high" <;> simp [hhigh]
  · show (if hint_is_high hint_policy = true then _ + 1 else _) = _ ↔ _
    rw [hh]
    by_cases hhigh : hint_policy = some "high" <;> simp [hhigh]
  · intro hsol
    subst hsol
    show (_ ∧ _ ∧ _)
    simp only [beq_self_eq_true, if_true]
    refine ⟨by trivial, ?_, ?_⟩
    · cases havg : (statsD st sid uid topic).avg_steps_to_solve with
      | none =>
        have h0 : (statsD st sid uid topic).solved_count = 0 := hlink.mp havg
        simp only [havg, h0]
        norm_num
      | some a =>
        simp only [havg, Option.getD_some]
        have hsub : ((statsD st sid uid topic).solved_count + 1 - 1 : Int)
            = (statsD st sid uid topic).solved_count := by omega
        rw [hsub]
    · intro h0
      have havg : (statsD st sid uid topic).avg_steps_to_solve = none := hlink.mpr h0
      simp only [havg]
  · intro hne
    have hbeq : (tutor_status == "SOLVED") = false := by simp [hne]
    show (_ ∧ _)
    simp only [hbeq, Bool.false_eq_true, if_false]
    exact ⟨by trivial, by trivial⟩
  · intro d hd
    subst hd
    rfl
  · intro hnone
    subst hnone
    rfl

/-- Witness for C6: a solve recorded on a session whose stats row shows one prior
solve in two attempts with average 2: attempts 2→3, solved 1→2, the new average is
(2·1 + 4)/2 = 3 for a plan counter of 3, and the supplied mastery delta is stored. -/
theorem c6_stats_recording_witness :
    let row : StatsRow :=
      { session_id := "s", user_id := "u", topic := "t", attempts := 2, solved_count := 1,
        avg_steps_to_solve := some 2, hint_count := 0, mastery_delta := none }
    let st := upsert_session_stats emptyStore "s" row
    let st' := update_session_stats_after_turn st "s" "u" "t" "SOLVED" (some "high") 3 (some 0.2)
    (statsD st' "s" "u" "t").attempts = 3 ∧
    (statsD st' "s" "u" "t").solved_count = 2 ∧
    (statsD st' "s" "u" "t").avg_steps_to_solve = some 3 ∧
    (statsD st' "s" "u" "t").hint_count = 1 ∧
    (statsD st' "s" "u" "t").mastery_delta = some 0.2 := by
  intro row st st'
  have h := c6_stats_recording st "s" "u" "t" "SOLVED" (some "high") 3 (some 0.2)
    (Or.inr (Or.inr (Or.inr rfl))) (by decide)
  obtain ⟨h1, h2, _, h4, _, h6, _⟩ := h
  have hs := h4 rfl
  refine ⟨?_, ?_, ?_, ?_, ?_⟩
  · rw [h1]; decide
  · rw [hs.1]; decide
  · rw [hs.2.1]
    have hrow0 : statsD st "s" "u" "t" = row := by
      show (get_session_stats (upsert_session_stats emptyStore "s" row) "s").getD _ = row
      rw [get_session_stats_upsert]
      rfl
    rw [hrow0]
    simp only [Option.getD_some]
    norm_num [maxZ]
  · rw [h2]; decide
  · exact h6 0.2 rfl

/-- C9 (amended): every `upsert_student_skill` call increments the exposure count
by one; for an existing record mastery increases by 0.15 (no help) or 0.05 (help),
clamped into [0, 0.95]; on first exposure mastery is initialized to 0.35 plus that
increment (clamped) rather than increased from the schema default 0; the stored
mastery never exceeds 0.95; `needs_reinforcement` is set exactly when the
resulting mastery is below 0.6 or the resulting count is below 2. -/
theorem c9_skill_update (st : Store) (uid topic skill : String) (needed_help : Bool)
    (ct : Option String) :
    ∃ r', skills_get (upsert_student_skill st uid topic skill needed_help ct) uid topic skill
        = some r' ∧
      r'.mastery ≤ 0.95 ∧
      (r'.needs_reinforcement = true ↔ (r'.mastery < 0.6 ∨ r'.count < 2)) ∧
      (skills_get st uid topic skill = none →
        r'.count = 1 ∧
        r'.mastery = clampQ (0.35 + (if needed_help then 0.05 else 0.15)) 0 0.95) ∧
      (∀ r, skills_get st uid topic skill = some r →
        r'.count = r.count + 1 ∧
        r'.mastery = clampQ (r.mastery + (if needed_help then 0.05 else 0.15)) 0 0.95 ∧
        (0 ≤ r.mastery → r.mastery + (if needed_help then 0.05 else 0.15) ≤ 0.95 →
          r'.mastery = r.mastery + (if needed_help then 0.05 else 0.15))) := by
  have hfind : ∀ row : SkillRow, row.user_id = uid → row.topic = topic →
      row.skill_id = skill → skills_get (skills_put st row) uid topic skill = some row := by
    intro row h1 h2 h3
    subst h1; subst h2; subst h3
    unfold skills_get skills_put
    exact find?_upsertRow_self _ st.skills row (by simp)
  have hinc : (0:ℚ) ≤ if needed_help then (0.05:ℚ) else 0.15 := by
    split_ifs <;> norm_num
  unfold upsert_student_skill
  cases hprev : skills_get st uid topic skill with
  | none =>
    refine ⟨{ user_id := uid, topic := topic, skill_id := skill, count := 1,
              mastery := clampQ (0.35 + if needed_help then 0.05 else 0.15) 0 0.95,
              needs_reinforcement :=
                decide (clampQ (0.35 + if needed_help then 0.05 else 0.15) 0 0.95 < 0.6)
                  || decide ((1:Int) < 2),
              contexts_seen := merge_context "" ct },
            hfind _ rfl rfl rfl, ?_, ?_, fun _ => ⟨rfl, rfl⟩, ?_⟩
    · exact clampQ_le_hi _ _ _ (by norm_num)
    · simp only [Bool.or_eq_true, decide_eq_true_eq]
    · intro r hr
      cases hr
  | some r0 =>
    refine ⟨{ user_id := uid, topic := topic, skill_id := skill, count := r0.count + 1,
              mastery := clampQ (r0.mastery + if needed_help then 0.05 else 0.15) 0 0.95,
              needs_reinforcement :=
                decide (clampQ (r0.mastery + if needed_help then 0.05 else 0.15) 0 0.95 < 0.6)
                  || decide (r0.count + 1 < 2),
              contexts_seen := merge_context r0.contexts_seen ct },
            hfind _ rfl rfl rfl, ?_, ?_, ?_, ?_⟩
    · exact clampQ_le_hi _ _ _ (by norm_num)
    · simp only [Bool.or_eq_true, decide_eq_true_eq]
    · intro hr
      cases hr
    · intro r hr
      cases hr
      refine ⟨rfl, rfl, ?_⟩
      intro hlo hhi
      exact clampQ_eq_self _ _ _ (by linarith) hhi

/-- C5: on a processed normal turn whose outcome is not SOLVED, the Plan's step
counter is incremented by one; when the incremented counter has reached
`step_budget` (or the caller forced a refresh) one new Plan is requested from the
planning capability, with the counter reset to 0 on success (and budget 6); on
planning failure the existing Plan is kept with the counter still reset to 0;
without a refresh the persisted counter stays strictly below the budget; and
after a refresh the persisted plan cannot trigger a budget refresh on the
immediately following turn (for any budget of at least 2). -/
theorem c5_step_budget (env : Env) (st : Store) (u sid msg : String) (fr : Bool)
    (sess : Session) (sos : SocraticReply) (p0 : Plan) (used budget : Int)
    (hmsg : ¬ (trimStr msg = "" ∧ fr = false))
    (hcmd : startsWithStr (trimStr msg) "/" = false)
    (huser : user_exists st u = true)
    (hsess : get_session st sid = some sess)
    (hsoc : call_socratic_agent env.socratic = Except.ok sos)
    (hts : ¬ (sos.topic_shift = true ∧ sos.new_topic.getD "" ≠ ""))
    (hgs : ¬ (sos.goal_shift = true ∧ sos.new_goal.getD "" ≠ ""))
    (hnd : sos.status ≠ "SOLVED")
    (hp0 : turn_plan env st u sess sid = p0)
    (hused : p0.steps_used.getD 0 = used)
    (hbud : p0.step_budget.getD 6 = budget) :
    (handle_student_message env st u sid msg fr).1 = HandleResult.reply sos ∧
    (¬ (fr = true ∨ used + 1 ≥ budget) →
      get_session_plan (handle_student_message env st u sid msg fr).2 sid
          = some { p0 with steps_used := some (used + 1) } ∧
      used + 1 < budget ∧
      (handle_student_message env st u sid msg fr).2.planner_calls = st.planner_calls) ∧
    ((fr = true ∨ used + 1 ≥ budget) →
      (handle_student_message env st u sid msg fr).2.planner_calls
          = st.planner_calls ++ [("checkpoint", "checkpoint_refresh")] ∧
      ((∃ p, env.planner "checkpoint" = Except.ok p ∧
          get_session_plan (handle_student_message env st u sid msg fr).2 sid
            = some { p.toPlan with topic := some sess.topic
                                   steps_used := some 0
                                   step_budget := some 6 }) ∨
       (∃ e, env.planner "checkpoint" = Except.error e ∧
          get_session_plan (handle_student_message env st u sid msg fr).2 sid
            = some { p0 with steps_used := some 0 })) ∧
      (∀ p', get_session_plan (handle_student_message env st u sid msg fr).2 sid = some p' →
        p'.steps_used = some 0 ∧
        (2 ≤ budget → ¬ (p'.steps_used.getD 0 ≥ p'.step_budget.getD 6)))) := by
  subst hp0 hused hbud
  rw [handle_message_normal_unsolved env st u sid msg fr sess sos hmsg hcmd huser hsess hsoc
    hts hgs hnd]
  simp only [unsolved_tail]
  refine ⟨by trivial, ?_, ?_⟩
  · intro hnr
    split
    · rename_i h
      exfalso
      apply hnr
      rw [Bool.or_eq_true, decide_eq_true_eq, Option.getD_some] at h
      exact h
    · rename_i h
      rw [Bool.not_eq_true, Bool.or_eq_false_iff, decide_eq_false_iff_not,
        Option.getD_some] at h
      refine ⟨get_session_plan_save _ _ _, ?_, rfl⟩
      have h2 := h.2
      omega
  · intro hr2
    split
    · split
      · rename_i h p hpl
        refine ⟨rfl, Or.inl ⟨p, hpl, get_session_plan_save _ _ _⟩, ?_⟩
        intro p' hp'
        rw [get_session_plan_save] at hp'
        cases hp'
        exact ⟨rfl, fun _ => by norm_num⟩
      · rename_i h e hpl
        refine ⟨rfl, Or.inr ⟨e, hpl, get_session_plan_save _ _ _⟩, ?_⟩
        intro p' hp'
        rw [get_session_plan_save] at hp'
        cases hp'
        refine ⟨rfl, fun hb2 => ?_⟩
        show ¬ ((0:Int) ≥ (turn_plan env st u sess sid).step_budget.getD 6)
        omega
    · rename_i h
      exfalso
      rw [Bool.not_eq_true, Bool.or_eq_false_iff, decide_eq_false_iff_not,
        Option.getD_some] at h
      rcases hr2 with hr2 | hr2
      · exact absurd hr2 (by simp [h.1])
      · exact absurd hr2 h.2

/-- C1 (amended): a dialogue-capability failure that raises out of
`call_socratic_agent` (a non-SDK exception) yields the degraded ONGOING reply
with no tutor turn persisted and no statistics, snapshot, skill, difficulty, or
session mutation — but the student turn has already been persisted and the
session's ensured Plan has been saved before the dialogue call.  An `SDKError`
that exhausts retries (or is non-transient) does not raise at all: the degraded
ONGOING reply is processed as a normal turn, persisting a tutor turn and
incrementing `attempts`. -/
theorem c1_dialogue_failure (env : Env) (st : Store) (u sid msg : String) (fr : Bool)
    (sess : Session)
    (hmsg : ¬ (trimStr msg = "" ∧ fr = false))
    (hcmd : startsWithStr (trimStr msg) "/" = false)
    (huser : user_exists st u = true)
    (hsess : get_session st sid = some sess) :
    (∀ e, env.socratic = Except.error (CallErr.other e) →
      (handle_student_message env st u sid msg fr).1
          = simpleReply "ONGOING" "ASK_QUESTION" "Model error (rate limit). Try again." ∧
      (handle_student_message env st u sid msg fr).2.stats = st.stats ∧
      (handle_student_message env st u sid msg fr).2.snapshots = st.snapshots ∧
      (handle_student_message env st u sid msg fr).2.skills = st.skills ∧
      (handle_student_message env st u sid msg fr).2.topic_diff = st.topic_diff ∧
      (handle_student_message env st u sid msg fr).2.sessions = st.sessions ∧
      (handle_student_message env st u sid msg fr).2.planner_calls = st.planner_calls ∧
      (handle_student_message env st u sid msg fr).2.interactions
          = st.interactions ++ [student_turn st sid (trimStr msg)] ∧
      get_session_plan (handle_student_message env st u sid msg fr).2 sid
          = some (turn_plan env st u sess sid) ∧
      (∀ sid', sid' ≠ sid →
        get_session_plan (handle_student_message env st u sid msg fr).2 sid'
          = get_session_plan st sid')) ∧
    (∀ m, env.socratic = Except.error (CallErr.sdk m) →
      (handle_student_message env st u sid msg fr).1
          = HandleResult.reply socratic_error_reply ∧
      (handle_student_message env st u sid msg fr).2.interactions
          = st.interactions ++ [student_turn st sid (trimStr msg),
              tutor_turn (save_session_plan (logged_student_store st sid (trimStr msg)) sid
                  (turn_plan env st u sess sid)) sid (get_next_turn_index st sid)
                (turn_plan env st u sess sid) socratic_error_reply] ∧
      (tutor_turn (save_session_plan (logged_student_store st sid (trimStr msg)) sid
          (turn_plan env st u sess sid)) sid (get_next_turn_index st sid)
          (turn_plan env st u sess sid) socratic_error_reply).speaker = "tutor" ∧
      (statsD (handle_student_message env st u sid msg fr).2 sid u sess.topic).attempts
          = (statsD st sid u sess.topic).attempts + 1) := by
  constructor
  · intro e hsoc
    have hred := handle_message_raise env st u sid msg fr sess e hmsg hcmd huser hsess
      (by rw [hsoc]; rfl)
    rw [hred]
    refine ⟨rfl, rfl, rfl, rfl, rfl, rfl, rfl, rfl, get_session_plan_save _ _ _, ?_⟩
    intro sid' hne
    rw [get_session_plan_save_ne _ _ _ _ hne]
    rfl
  · intro m hsoc
    have hred := handle_message_normal_unsolved env st u sid msg fr sess socratic_error_reply
      hmsg hcmd huser hsess (by rw [hsoc]; rfl) (by decide) (by decide) (by decide)
    rw [hred]
    have hfr := unsolved_tail_frame env
      (update_session_stats_after_turn
        (save_interaction
          (fresh_id (save_session_plan (logged_student_store st sid (trimStr msg)) sid
            (turn_plan env st u sess sid)) "i").2
          (tutor_turn (save_session_plan (logged_student_store st sid (trimStr msg)) sid
            (turn_plan env st u sess sid)) sid (get_next_turn_index st sid)
            (turn_plan env st u sess sid) socratic_error_reply))
        sid u sess.topic socratic_error_reply.status
        (some (turn_plan env st u sess sid).hint_policy)
        ((turn_plan env st u sess sid).steps_used.getD 0) none)
      sid sess
      { turn_plan env st u sess sid with
          steps_used := some ((turn_plan env st u sess sid).steps_used.getD 0 + 1) }
      socratic_error_reply fr
    refine ⟨rfl, ?_, rfl, ?_⟩
    · rw [hfr.1]
      simp only [update_session_stats_after_turn, upsert_session_stats, save_interaction,
        fresh_id, save_session_plan, logged_student_store, List.append_assoc,
        List.cons_append, List.nil_append]
    · rw [statsD_congr _ _ sid u sess.topic hfr.2.1, stats_update_attempts]
      rfl

/-- Witness for C5: on a plan with 5 of 6 steps used, a non-solved turn reaches
the budget, requests exactly one checkpoint re-plan, and (the planner failing)
keeps the plan with the counter reset to 0. -/
theorem c5_step_budget_witness :
    (handle_student_message envC5 storeC5 "u" "s" "hi" false).1
        = HandleResult.reply ongoingReply ∧
    (handle_student_message envC5 storeC5 "u" "s" "hi" false).2.planner_calls
        = [("checkpoint", "checkpoint_refresh")] ∧
    get_session_plan (handle_student_message envC5 storeC5 "u" "s" "hi" false).2 "s"
        = some { plan5 with steps_used := some 0 } := by
  have h := c5_step_budget envC5 storeC5 "u" "s" "hi" false baseSession ongoingReply plan5 5 6
    (by decide) (by decide) rfl rfl rfl (by decide) (by decide) (by decide) rfl rfl rfl
  obtain ⟨h1, _, h3⟩ := h
  have hr := h3 (by omega)
  refine ⟨h1, ?_, ?_⟩
  · rw [hr.1]
    rfl
  · rcases hr.2.1 with ⟨p, hp, _⟩ | ⟨e, he, hplan⟩
    · exact Except.noConfusion (show (Except.error "down" : Except String PlannerOutput)
        = Except.ok p from hp)
    · exact hplan

/-- Witness for C9: first exposure of a skill with no help needed — count 1,
mastery 1/2, flagged for reinforcement. -/
theorem c9_skill_update_witness :
    ∃ r', skills_get (upsert_student_skill emptyStore "u" "t" "sk" false none) "u" "t" "sk"
        = some r' ∧ r'.count = 1 ∧ r'.mastery = 1/2 ∧ r'.needs_reinforcement = true := by
  obtain ⟨r', hget, _, hneeds, hnone, _⟩ := c9_skill_update emptyStore "u" "t" "sk" false none
  obtain ⟨hc, hm⟩ := hnone rfl
  refine ⟨r', hget, hc, ?_, ?_⟩
  · rw [hm]; norm_num [clampQ, minQ, maxQ]
  · exact hneeds.mpr (Or.inr (by rw [hc]; norm_num))

/-- Counterexample for C9: on the first exposure of a skill (no stored record, so
the schema-default mastery is 0) an unaided solve stores mastery
0.35 + 0.15 = 0.5, which is not an increase of 0.15 — the claim's "mastery
increases by 0.15" fails on the first-exposure path. -/
theorem c9_counterexample :
    skills_get emptyStore "u" "t" "sk" = none ∧
    (skills_get (upsert_student_skill emptyStore "u" "t" "sk" false none) "u" "t" "sk").map
        (fun r => (r.count, r.mastery)) = some (1, 1/2) ∧
    (1/2 : ℚ) ≠ 0 + 0.15 := by
  refine ⟨rfl, ?_, by norm_num⟩
  have h1 : skills_get (upsert_student_skill emptyStore "u" "t" "sk" false none) "u" "t" "sk"
      = some { user_id := "u", topic := "t", skill_id := "sk", count := 1,
               mastery := clampQ (0.35 + 0.15) 0 0.95,
               needs_reinforcement :=
                 decide (clampQ (0.35 + 0.15) 0 0.95 < 0.6) || decide ((1:Int) < 2),
               contexts_seen := "" } := rfl
  rw [h1]
  have hv : clampQ (0.35 + 0.15) 0 0.95 = 1/2 := by norm_num [clampQ, minQ, maxQ]
  simp only [Option.map_some', hv]

/-- Counterexample for C1: with a dialogue capability that raises a non-SDK
exception, the turn does return the degraded ONGOING reply, but — contrary to
"no turn (student or tutor) is persisted … the session's Plan is unchanged" —
the student turn has already been persisted and a warm-up Plan has been created
and saved for a session that previously had none. -/
theorem c1_counterexample :
    (handle_student_message envC1 baseStore "u" "s" "hi" false).1
        = simpleReply "ONGOING" "ASK_QUESTION" "Model error (rate limit). Try again." ∧
    baseStore.interactions = [] ∧
    (handle_student_message envC1 baseStore "u" "s" "hi" false).2.interactions.length = 1 ∧
    get_session_plan baseStore "s" = none ∧
    (get_session_plan (handle_student_message envC1 baseStore "u" "s" "hi" false).2 "s").map
        (fun p => p.goal) = some "Warm-up and diagnose understanding of math" := by
  have hred := handle_message_raise envC1 baseStore "u" "s" "hi" false baseSession "boom"
    (by decide) (by decide) rfl rfl rfl
  rw [hred]
  refine ⟨rfl, rfl, rfl, rfl, ?_⟩
  rw [get_session_plan_save]
  rfl

/-- Witness for C1 (amended): at a concrete non-SDK failure, the stats,
snapshots, skills, sessions and difficulty tables are untouched while the
student turn alone is appended. -/
theorem c1_dialogue_failure_witness :
    (handle_student_message envC1 baseStore "u" "s" "hi" false).2.stats = baseStore.stats ∧
    (handle_student_message envC1 baseStore "u" "s" "hi" false).2.interactions
        = baseStore.interactions ++ [student_turn baseStore "s" (trimStr "hi")] := by
  have h := (c1_dialogue_failure envC1 baseStore "u" "s" "hi" false baseSession
    (by decide) (by decide) rfl rfl).1 "boom" rfl
  exact ⟨h.2.1, h.2.2.2.2.2.2.2.1⟩

/-- C2 (amended): on a SOLVED turn the tutor's reply is returned and the topic
mastery is non-decreasing across the turn.  If the downstream skill-extraction
call returns, a ProgressSnapshot crediting `(user, topic)` with the solve-time
mastery increment is recorded and the persisted next Plan has `steps_used = 0`.
If the skill-extraction call raises, however, no snapshot is recorded and the
turn's ensured Plan is persisted with its step counter untouched — the spec's
"steps_used = 0 ... including when the skill-extraction call fails" does not
hold on that path. -/
theorem c2_solved_progress (env : Env) (st : Store) (u sid msg : String) (fr : Bool)
    (sess : Session) (sos : SocraticReply)
    (hmsg : ¬ (trimStr msg = "" ∧ fr = false))
    (hcmd : startsWithStr (trimStr msg) "/" = false)
    (huser : user_exists st u = true)
    (hsess : get_session st sid = some sess)
    (hsoc : call_socratic_agent env.socratic = Except.ok sos)
    (hts : ¬ (sos.topic_shift = true ∧ sos.new_topic.getD "" ≠ ""))
    (hgs : ¬ (sos.goal_shift = true ∧ sos.new_goal.getD "" ≠ ""))
    (hd : sos.status = "SOLVED") :
    (handle_student_message env st u sid msg fr).1 = HandleResult.reply sos ∧
    get_topic_mastery st u sess.topic
        ≤ get_topic_mastery (handle_student_message env st u sid msg fr).2 u sess.topic ∧
    (∀ L, env.learning = Except.ok L →
      (∃ snap : Snapshot,
        (handle_student_message env st u sid msg fr).2.snapshots
            = st.snapshots ++ [snap] ∧
        snap.user_id = u ∧ snap.topic = sess.topic ∧
        snap.mastery_delta = compute_delta (get_topic_mastery st u sess.topic) ∧
        snap.reason = L.reason) ∧
      (∀ p', get_session_plan (handle_student_message env st u sid msg fr).2 sid = some p' →
        p'.steps_used = some 0)) ∧
    (∀ e, env.learning = Except.error e →
      (handle_student_message env st u sid msg fr).2.snapshots = st.snapshots ∧
      get_session_plan (handle_student_message env st u sid msg fr).2 sid
          = some (turn_plan env st u sess sid)) := by
  have hred := handle_message_normal_solved env st u sid msg fr sess sos hmsg hcmd huser hsess
    hsoc hts hgs hd
  rw [hred]
  cases hLc : env.learning with
  | error e0 =>
    simp only [solved_tail, hLc]
    refine ⟨by trivial, ?_, ?_, ?_⟩
    · exact le_of_eq (Eq.symm (get_topic_mastery_congr _ st u sess.topic rfl))
    · intro L hL'
      exact Except.noConfusion hL'
    · intro e he
      exact ⟨rfl, get_session_plan_save _ _ _⟩
  | ok L0 =>
    obtain ⟨hco1, hco2, p', hp', hp0⟩ := solved_tail_ok env
      (update_session_stats_after_turn
        (save_interaction
          (fresh_id (save_session_plan (logged_student_store st sid (trimStr msg)) sid
            (turn_plan env st u sess sid)) "i").2
          (tutor_turn (save_session_plan (logged_student_store st sid (trimStr msg)) sid
            (turn_plan env st u sess sid)) sid (get_next_turn_index st sid)
            (turn_plan env st u sess sid) sos))
        sid u sess.topic sos.status (some (turn_plan env st u sess sid).hint_policy)
        ((turn_plan env st u sess sid).steps_used.getD 0)
        (some (compute_delta (get_topic_mastery st u sess.topic))))
      u sid sess (turn_plan env st u sess sid) (turn_plan env st u sess sid) sos
      (compute_delta (get_topic_mastery st u sess.topic)) L0 hLc
    refine ⟨hco1, ?_, ?_, ?_⟩
    · exact get_topic_mastery_append_mono st _ u sess.topic _ hco2 (compute_delta_nonneg _)
    · intro L hL'
      injection hL' with hLL
      subst hLL
      refine ⟨⟨_, hco2, rfl, rfl, rfl, rfl⟩, ?_⟩
      intro p'' hp''
      rw [hp'] at hp''
      injection hp'' with hh
      exact hh ▸ hp0
    · intro e he
      exact Except.noConfusion he

/-- Witness for C2: a concrete SOLVED turn with successful skill extraction —
reply returned, snapshot with the solve-time delta appended, mastery
non-decreasing, persisted plan counter reset to 0. -/
theorem c2_solved_progress_witness :
    (handle_student_message envC2 storeC2 "u" "s" "hi" false).1
        = HandleResult.reply solvedReply ∧
    get_topic_mastery storeC2 "u" "math"
        ≤ get_topic_mastery (handle_student_message envC2 storeC2 "u" "s" "hi" false).2
            "u" "math" ∧
    (∃ snap : Snapshot,
      (handle_student_message envC2 storeC2 "u" "s" "hi" false).2.snapshots
          = storeC2.snapshots ++ [snap] ∧
      snap.mastery_delta = compute_delta (get_topic_mastery storeC2 "u" "math")) ∧
    (∀ p', get_session_plan (handle_student_message envC2 storeC2 "u" "s" "hi" false).2 "s"
        = some p' → p'.steps_used = some 0) := by
  have h := c2_solved_progress envC2 storeC2 "u" "s" "hi" false baseSession solvedReply
    (by decide) (by decide) rfl rfl rfl (by decide) (by decide) rfl
  obtain ⟨h1, h2, hok, _⟩ := h
  obtain ⟨⟨snap, hs, _, _, hdelta, _⟩, hp⟩ := hok lrnC2 rfl
  exact ⟨h1, h2, ⟨snap, hs, hdelta⟩, hp⟩

/-- Counterexample for C2: a SOLVED turn whose skill-extraction call raises.
The plan persisted at the end of the turn still has `steps_used = 3` (the
counter is not reset) and no ProgressSnapshot is recorded, refuting "the
persisted Plan has steps_used = 0 ... including when the downstream
skill-extraction call fails". -/
theorem c2_counterexample :
    (handle_student_message envC2err storeC2 "u" "s" "hi" false).1
        = HandleResult.reply solvedReply ∧
    (get_session_plan (handle_student_message envC2err storeC2 "u" "s" "hi" false).2 "s").map
        (fun p => p.steps_used) = some (some 3) ∧
    (handle_student_message envC2err storeC2 "u" "s" "hi" false).2.snapshots = [] := by
  have hred := handle_message_normal_solved envC2err storeC2 "u" "s" "hi" false baseSession
    solvedReply (by decide) (by decide) rfl rfl rfl (by decide) (by decide) rfl
  rw [hred]
  exact ⟨rfl, rfl, rfl⟩

/-- C3 (amended): on the post-solve plan-generation path, a corrective re-plan
with reason `"avoid_repeat_goal"` is requested iff the first generated next
plan's goal equals the just-solved goal, and never more than once; the
corrective result is kept — even when the planner fails or returns the repeated
goal again, so the persisted goal may still equal the just-solved goal. -/
theorem c3_repeat_goal_guard (env : Env) (st : Store) (u sid msg : String) (fr : Bool)
    (sess : Session) (sos : SocraticReply) (L : LearningExtract)
    (hmsg : ¬ (trimStr msg = "" ∧ fr = false))
    (hcmd : startsWithStr (trimStr msg) "/" = false)
    (huser : user_exists st u = true)
    (hsess : get_session st sid = some sess)
    (hsoc : call_socratic_agent env.socratic = Except.ok sos)
    (hts : ¬ (sos.topic_shift = true ∧ sos.new_topic.getD "" ≠ ""))
    (hgs : ¬ (sos.goal_shift = true ∧ sos.new_goal.getD "" ≠ ""))
    (hd : sos.status = "SOLVED")
    (hL : env.learning = Except.ok L) :
    (((first_next_plan env sess.topic (turn_plan env st u sess sid)).goal
        == (turn_plan env st u sess sid).goal) = true →
      (handle_student_message env st u sid msg fr).2.planner_calls
          = st.planner_calls
            ++ [("post_solve", L.reason), ("post_solve_retry", "avoid_repeat_goal")] ∧
      (∀ q, env.planner "post_solve_retry" = Except.ok q →
        get_session_plan (handle_student_message env st u sid msg fr).2 sid
            = some (normalize_next_plan sess.topic q.toPlan)) ∧
      (∀ e, env.planner "post_solve_retry" = Except.error e →
        get_session_plan (handle_student_message env st u sid msg fr).2 sid
            = some (normalize_next_plan sess.topic
                (first_next_plan env sess.topic (turn_plan env st u sess sid))))) ∧
    (((first_next_plan env sess.topic (turn_plan env st u sess sid)).goal
        == (turn_plan env st u sess sid).goal) = false →
      (handle_student_message env st u sid msg fr).2.planner_calls
          = st.planner_calls ++ [("post_solve", L.reason)] ∧
      get_session_plan (handle_student_message env st u sid msg fr).2 sid
          = some (first_next_plan env sess.topic (turn_plan env st u sess sid))) := by
  have hred := handle_message_normal_solved env st u sid msg fr sess sos hmsg hcmd huser hsess
    hsoc hts hgs hd
  rw [hred]
  exact solved_tail_planner env _ u sid sess _ _ sos _ L hL

/-- Witness for C3: the first post-solve plan repeats the solved goal `"g"`;
exactly one corrective call is traced and the corrective plan (goal `"g2"`) is
persisted. -/
theorem c3_repeat_goal_guard_witness :
    ((first_next_plan envC3 "math" (turn_plan envC3 storeC2 "u" baseSession "s")).goal
        == (turn_plan envC3 storeC2 "u" baseSession "s").goal) = true ∧
    (handle_student_message envC3 storeC2 "u" "s" "hi" false).2.planner_calls
        = [("post_solve", "r"), ("post_solve_retry", "avoid_repeat_goal")] ∧
    (get_session_plan (handle_student_message envC3 storeC2 "u" "s" "hi" false).2 "s").map
        (fun p => p.goal) = some "g2" := by
  have h := (c3_repeat_goal_guard envC3 storeC2 "u" "s" "hi" false baseSession solvedReply
    lrnC2 (by decide) (by decide) rfl rfl rfl (by decide) (by decide) rfl rfl).1 rfl
  obtain ⟨hpc, hq, _⟩ := h
  refine ⟨rfl, hpc, ?_⟩
  rw [hq pOutG2 rfl]
  rfl

/-- Counterexample for C3: the corrective re-plan fails, the repeated candidate
is kept, and the persisted next plan's goal still textually equals the
just-solved goal `"g"` — refuting "the persisted next Plan's goal never
textually equals the just-solved goal after the corrective re-plan step". -/
theorem c3_counterexample :
    (turn_plan envC3err storeC2 "u" baseSession "s").goal = "g" ∧
    (handle_student_message envC3err storeC2 "u" "s" "hi" false).2.planner_calls
        = [("post_solve", "r"), ("post_solve_retry", "avoid_repeat_goal")] ∧
    (get_session_plan (handle_student_message envC3err storeC2 "u" "s" "hi" false).2 "s").map
        (fun p => p.goal) = some "g" := by
  have hred := handle_message_normal_solved envC3err storeC2 "u" "s" "hi" false baseSession
    solvedReply (by decide) (by decide) rfl rfl rfl (by decide) (by decide) rfl
  rw [hred]
  exact ⟨rfl, rfl, rfl⟩

/-- C8: on a processed turn whose reply has `topic_shift` true and a non-empty
new topic (and whose freshly generated session id does not collide with an
existing session or the current one), the tutor turn is persisted in the current
session with the tutor's message, a brand-new Session for the trimmed new topic
is created with its own bootstrapped Plan — from the planning capability, or the
warm-up default on planning failure, with `steps_used = 0` — the returned dict
carries the new session id, and the current session's plan entry is left
untouched (it still holds the plan ensured and saved earlier this turn). -/
theorem c8_topic_shift (env : Env) (st : Store) (u sid msg : String) (fr : Bool)
    (sess : Session) (sos : SocraticReply)
    (hmsg : ¬ (trimStr msg = "" ∧ fr = false))
    (hcmd : startsWithStr (trimStr msg) "/" = false)
    (huser : user_exists st u = true)
    (hsess : get_session st sid = some sess)
    (hsoc : call_socratic_agent env.socratic = Except.ok sos)
    (hts : sos.topic_shift = true ∧ sos.new_topic.getD "" ≠ "")
    (hfs : st.sessions.any
        (fun t => t.session_id == "s" ++ "_" ++ toString (st.next_id + 2)) = false)
    (hne : sid ≠ "s" ++ "_" ++ toString (st.next_id + 2)) :
    (handle_student_message env st u sid msg fr).1
        = HandleResult.dict { status := sos.status
                              action := sos.expected_student_action
                              tutor_message := sos.tutor_message
                              topic_shift := true
                              new_topic := some (trimStr (sos.new_topic.getD ""))
                              new_session_id := some ("s" ++ "_" ++ toString (st.next_id + 2)) } ∧
    (handle_student_message env st u sid msg fr).2.interactions
        = st.interactions ++ [student_turn st sid (trimStr msg)]
          ++ [{ interaction_id := "i" ++ "_" ++ toString (st.next_id + 1)
                session_id := sid
                turn_index := get_next_turn_index st sid + 1
                speaker := "tutor"
                agent_role := "socratic_tutor"
                content := sos.tutor_message ++ "\n\n✅ New session created for: "
                  ++ trimStr (sos.new_topic.getD "")
                status := some sos.status
                hint_policy := some (turn_plan env st u sess sid).hint_policy }] ∧
    (handle_student_message env st u sid msg fr).2.sessions
        = st.sessions
          ++ [{ session_id := "s" ++ "_" ++ toString (st.next_id + 2)
                user_id := u
                topic := trimStr (sos.new_topic.getD "")
                difficulty_mode := "auto"
                manual_target_difficulty := "medium" }] ∧
    get_session (handle_student_message env st u sid msg fr).2
        ("s" ++ "_" ++ toString (st.next_id + 2))
        = some { session_id := "s" ++ "_" ++ toString (st.next_id + 2)
                 user_id := u
                 topic := trimStr (sos.new_topic.getD "")
                 difficulty_mode := "auto"
                 manual_target_difficulty := "medium" } ∧
    (∀ q, env.planner "topic_shift" = Except.ok q →
      get_session_plan (handle_student_message env st u sid msg fr).2
          ("s" ++ "_" ++ toString (st.next_id + 2))
        = some (normalize_next_plan (trimStr (sos.new_topic.getD "")) q.toPlan)) ∧
    (∀ e, env.planner "topic_shift" = Except.error e →
      get_session_plan (handle_student_message env st u sid msg fr).2
          ("s" ++ "_" ++ toString (st.next_id + 2))
        = some (normalize_next_plan (trimStr (sos.new_topic.getD ""))
            (ensure_plan none (trimStr (sos.new_topic.getD ""))
              (resolved_mastery env st u (trimStr (sos.new_topic.getD "")))
              (target_from_mastery
                (resolved_mastery env st u (trimStr (sos.new_topic.getD "")))))))  ∧
    get_session_plan (handle_student_message env st u sid msg fr).2 sid
        = some (turn_plan env st u sess sid) ∧
    (∀ p', get_session_plan (handle_student_message env st u sid msg fr).2
        ("s" ++ "_" ++ toString (st.next_id + 2)) = some p' → p'.steps_used = some 0) := by
  rw [handle_message_topic_shift env st u sid msg fr sess sos hmsg hcmd huser hsess hsoc hts]
  obtain ⟨h1, h2, h3, h4, h5, h6, h7, h8⟩ := topic_shift_branch_char env
    (save_session_plan (logged_student_store st sid (trimStr msg)) sid
      (turn_plan env st u sess sid))
    u sid (get_next_turn_index st sid) (turn_plan env st u sess sid) sos hfs hne
  exact ⟨h1, h2, h3, h4, h5, h6, h7.trans (get_session_plan_save _ _ _), h8⟩

/-- Witness for C8: a concrete topic shift to `"physics"` — dict carries the new
session id `"s_2"`, the new session and its warm-up plan (counter 0) exist, the
tutor turn stays in session `"s"`, and session `"s"` keeps its own plan. -/
theorem c8_topic_shift_witness :
    (handle_student_message envC8 baseStore "u" "s" "hi" false).1
        = HandleResult.dict { status := "ONGOING"
                              action := "ASK_QUESTION"
                              tutor_message := "ok."
                              topic_shift := true
                              new_topic := some "physics"
                              new_session_id := some "s_2" } ∧
    get_session (handle_student_message envC8 baseStore "u" "s" "hi" false).2 "s_2"
        = some { session_id := "s_2"
                 user_id := "u"
                 topic := "physics"
                 difficulty_mode := "auto"
                 manual_target_difficulty := "medium" } ∧
    (handle_student_message envC8 baseStore "u" "s" "hi" false).2.interactions.map
        (fun i => (i.session_id, i.speaker)) = [("s", "student"), ("s", "tutor")] ∧
    ((∃ p', get_session_plan (handle_student_message envC8 baseStore "u" "s" "hi" false).2 "s_2"
        = some p') ∧
      (∀ p', get_session_plan (handle_student_message envC8 baseStore "u" "s" "hi" false).2 "s_2"
        = some p' → p'.steps_used = some 0)) ∧
    get_session_plan (handle_student_message envC8 baseStore "u" "s" "hi" false).2 "s"
        = some (turn_plan envC8 baseStore "u" baseSession "s") := by
  obtain ⟨h1, h2, h3, h4, _, h6, h7, h8⟩ := c8_topic_shift envC8 baseStore "u" "s" "hi" false
    baseSession shiftReply (by decide) (by decide) rfl rfl rfl (by decide) (by decide)
    (by decide)
  refine ⟨h1, h4, ?_, ⟨⟨_, h6 "down" rfl⟩, fun p' hp' => h8 p' hp'⟩, h7⟩
  rw [h2]
  rfl

/-- C4 (amended): an empty input with `force_refresh` false, or a
command-prefixed input, is rejected with no side effects — the store is
returned unchanged and no turn is logged.  An empty input with `force_refresh`
true is NOT rejected (the spec's unconditional "empty input rejected" fails).
Every processed turn appends, for the addressed session, a student row at index
`max+1` (`get_next_turn_index`) optionally followed by one tutor row at the
following index, and contiguity (indices exactly `0..n-1`) of every session's
turn indices is preserved. -/
theorem c4_turn_indices (env : Env) (st : Store) (u sid msg : String) (fr : Bool)
    (sess : Session) :
    (trimStr msg = "" ∧ fr = false →
      handle_student_message env st u sid msg fr
        = (simpleReply "ONGOING" "ASK_QUESTION" "Send an answer.", st)) ∧
    (startsWithStr (trimStr msg) "/" = true → ¬ (trimStr msg = "" ∧ fr = false) →
      handle_student_message env st u sid msg fr
        = (simpleReply "ONGOING" "NOOP"
            "Command received. (This should be handled by CLI, not controller.)", st)) ∧
    (¬ (trimStr msg = "" ∧ fr = false) →
      startsWithStr (trimStr msg) "/" = false →
      user_exists st u = true →
      get_session st sid = some sess →
      ∃ l : List Interaction,
        (handle_student_message env st u sid msg fr).2.interactions
            = st.interactions ++ l ∧
        (∀ i ∈ l, i.session_id = sid) ∧
        (l.map (fun i => (i.speaker, i.turn_index))
            = [("student", get_next_turn_index st sid)] ∨
          l.map (fun i => (i.speaker, i.turn_index))
            = [("student", get_next_turn_index st sid),
               ("tutor", get_next_turn_index st sid + 1)]) ∧
        (∀ sid', TurnIndexOk st sid' →
          TurnIndexOk (handle_student_message env st u sid msg fr).2 sid')) := by
  refine ⟨?_, ?_, ?_⟩
  · intro h
    simp only [handle_student_message]
    rw [if_pos h]
  · intro hcmd1 hmsg1
    simp only [handle_student_message]
    rw [if_neg hmsg1, if_pos hcmd1]
  · intro hmsg hcmd huser hsess
    cases hsoc : call_socratic_agent env.socratic with
    | error e =>
      rw [handle_message_raise env st u sid msg fr sess e hmsg hcmd huser hsess hsoc]
      have hsid1 : ∀ i ∈ [student_turn st sid (trimStr msg)], i.session_id = sid := by
        intro i hi
        rw [List.mem_singleton] at hi
        subst hi
        rfl
      exact ⟨[student_turn st sid (trimStr msg)], rfl, hsid1, Or.inl rfl,
        turn_ok_of_block st _ sid _ rfl hsid1 (Or.inl rfl)⟩
    | ok sos =>
      by_cases hts2 : sos.topic_shift = true ∧ sos.new_topic.getD "" ≠ ""
      · rw [handle_message_topic_shift env st u sid msg fr sess sos hmsg hcmd huser hsess
          hsoc hts2]
        obtain ⟨tut, hti, hs1, hs2, hs3⟩ := topic_shift_interactions_ex env
          (save_session_plan (logged_student_store st sid (trimStr msg)) sid
            (turn_plan env st u sess sid))
          u sid (get_next_turn_index st sid) (turn_plan env st u sess sid) sos
        exact two_row_block st _ sid (trimStr msg) tut hti hs1 hs2 hs3
      · by_cases hgs2 : sos.goal_shift = true ∧ sos.new_goal.getD "" ≠ ""
        · rw [handle_message_goal_shift env st u sid msg fr sess sos hmsg hcmd huser hsess
            hsoc hts2 hgs2]
          obtain ⟨tut, hti, hs1, hs2, hs3⟩ := goal_shift_interactions_ex
            (save_session_plan (logged_student_store st sid (trimStr msg)) sid
              (turn_plan env st u sess sid))
            sid sess (resolved_mastery env st u sess.topic) (resolved_target env st u sess)
            (get_next_turn_index st sid) sos
          exact two_row_block st _ sid (trimStr msg) tut hti hs1 hs2 hs3
        · rw [handle_message_normal env st u sid msg fr sess sos hmsg hcmd huser hsess hsoc
            hts2 hgs2]
          obtain ⟨tut, hti, hs1, hs2, hs3⟩ := normal_branch_interactions env
            (save_session_plan (logged_student_store st sid (trimStr msg)) sid
              (turn_plan env st u sess sid))
            u sid sess (resolved_mastery env st u sess.topic) (resolved_target env st u sess)
            (get_next_turn_index st sid) (turn_plan env st u sess sid)
            (turn_plan env st u sess sid) sos fr
          exact two_row_block st _ sid (trimStr msg) tut hti hs1 hs2 hs3

/-- Witness for C4: the rejection paths return the store unchanged, and a
processed turn on an empty session logs student index 0 and tutor index 1,
keeping the session contiguous. -/
theorem c4_turn_indices_witness :
    handle_student_message envC5 emptyStore "u" "s" "" false
        = (simpleReply "ONGOING" "ASK_QUESTION" "Send an answer.", emptyStore) ∧
    handle_student_message envC5 emptyStore "u" "s" "/help" false
        = (simpleReply "ONGOING" "NOOP"
            "Command received. (This should be handled by CLI, not controller.)",
           emptyStore) ∧
    ∃ l : List Interaction,
      (handle_student_message envC5 storeC5 "u" "s" "hi" false).2.interactions
          = storeC5.interactions ++ l ∧
      (l.map (fun i => (i.speaker, i.turn_index))
          = [("student", get_next_turn_index storeC5 "s")] ∨
        l.map (fun i => (i.speaker, i.turn_index))
          = [("student", get_next_turn_index storeC5 "s"),
             ("tutor", get_next_turn_index storeC5 "s" + 1)]) ∧
      TurnIndexOk (handle_student_message envC5 storeC5 "u" "s" "hi" false).2 "s" := by
  obtain ⟨l, hl, _, hshape, hok⟩ := (c4_turn_indices envC5 storeC5 "u" "s" "hi" false
    baseSession).2.2 (by decide) (by decide) rfl rfl
  refine ⟨?_, ?_, l, hl, hshape, hok "s" (by decide)⟩
  · exact (c4_turn_indices envC5 emptyStore "u" "s" "" false baseSession).1 (by decide)
  · exact (c4_turn_indices envC5 emptyStore "u" "s" "/help" false baseSession).2.1
      (by decide) (by decide)

/-- Counterexample for C4: an empty student input with `force_refresh = true` is
NOT rejected — it is processed and a student turn with empty content is
persisted, refuting "an empty ... student input is rejected with no side
effects" as stated unconditionally. -/
theorem c4_counterexample :
    trimStr "" = "" ∧
    (handle_student_message envC1 baseStore "u" "s" "" true).2.interactions
        = [student_turn baseStore "s" ""] ∧
    (handle_student_message envC1 baseStore "u" "s" "" true).2.interactions
        ≠ baseStore.interactions := by
  have hred := handle_message_raise envC1 baseStore "u" "s" "" true baseSession "boom"
    (by decide) (by decide) rfl rfl rfl
  rw [hred]
  exact ⟨rfl, rfl, by decide⟩

end MetaMind
